import Mathlib

/-!
# Status panel and queue actions of the book downloader front end

A shallow embedding of `static/js/main.js`: the status subsystem
(`status.fetch`, `status.render`, `status.renderTop`, `status.updateActive`),
the queue actions (`queue.cancel`, `bookDetails.download`, the
clear-completed click handler) and the helpers they use (`utils.j`,
`utils.e`, `utils.show`, `utils.hide`, `utils.toast`, `modal.close`).

* JavaScript values are the values a JSON payload can hold, plus `undefined`
  (the result of reading a property that is not there).
* Functions that can throw return `Except JsError _`.
* The page is a record `World` of the elements the script touches, the
  console and the list of HTTP requests issued so far; an `async` function is a
  function `World → World` that is given the network's answers as an oracle.
-/

set_option maxRecDepth 100000

namespace BookDownloader

/-! ## JavaScript values -/

/-- The exceptions the modelled code can raise. -/
inductive JsError where
  /-- reading a property of `null` or `undefined` -/
  | typeError
  /-- raised by `res.json()` on a body that is not JSON -/
  | syntaxError
  /-- raised when `fetch` rejected: the request never completed -/
  | networkError
  /-- the `Error` thrown by `utils.j` for a response that is not ok; the text is its message -/
  | error (message : String)
  deriving DecidableEq, Repr

/-- A JavaScript value as the script can meet one in a parsed JSON payload.
A number is a double, held by its exact value (the infinities that
`JSON.parse` returns for a literal beyond the range of a double are left
out). An object
is the list of its own properties in enumeration order (the order of
`Object.entries`), so its keys are pairwise distinct. -/
inductive JVal where
  | undefined
  | null
  | bool (b : Bool)
  | num (q : ℚ)
  | str (s : String)
  | arr (xs : List JVal)
  | obj (props : List (String × JVal))

namespace JVal

/-- Nullish values (`v == null`), the values whose properties cannot be read. -/
def isNullish : JVal → Bool
  | undefined => true
  | null => true
  | _ => false

/-- Truthiness in JavaScript (`!!v`). -/
def truthy : JVal → Bool
  | undefined => false
  | null => false
  | bool b => b
  | num q => decide (q ≠ 0)
  | str s => decide (s ≠ "")
  | arr _ => true
  | obj _ => true

/-- The UTF-16 code units of a character as `Object.values` lists them for
a string: one string of length 1 for a character of the Basic Multilingual
Plane, two for a character outside it (its surrogate pair). A surrogate is
no character of its own here and is listed as the character it belongs to;
the script reads nothing of such a value but properties, which a string
does not have. -/
def codeUnits (c : Char) : List JVal :=
  if c.toNat < 65536 then [str (String.singleton c)]
  else [str (String.singleton c), str (String.singleton c)]

/-- The list `Object.entries(v)` for a value that is not nullish: the own
enumerable properties. An array has its indices, a string its UTF-16 code
units, a number or a boolean none. (On `null` and `undefined` JavaScript
throws; every call in the script is guarded by a truthiness test, and the
model returns `[]` there.) -/
def entries : JVal → List (String × JVal)
  | obj props => props
  | arr xs => xs.enum.map fun p => (toString p.1, p.2)
  | str s => (s.toList.flatMap codeUnits).enum.map fun p => (toString p.1, p.2)
  | _ => []

/-- The list `Object.keys(v)`. -/
def keys (v : JVal) : List String := v.entries.map Prod.fst

/-- The list `Object.values(v)`. -/
def values (v : JVal) : List JVal := v.entries.map Prod.snd

/-- The property `v.k` of a value that is not nullish, for a property name
`k` that the built-in prototypes do not define (the script reads `id`,
`title`, `progress`, `downloading` and `active_downloads`): the own property
of an object, `undefined` otherwise. -/
def prop (v : JVal) (k : String) : JVal :=
  match v with
  | obj props => (props.lookup k).getD undefined
  | _ => undefined

/-- The expression `v.k`: a `TypeError` on `null` and `undefined`. -/
def get (v : JVal) (k : String) : Except JsError JVal :=
  if v.isNullish then .error .typeError else .ok (v.prop k)

/-- The expression `a || b`. -/
def or (a b : JVal) : JVal := if a.truthy then a else b

/-- The binary exponent of a positive number: `2 ^ e ≤ a < 2 ^ (e + 1)`. -/
def binaryExponent (a : ℚ) : Int :=
  let e : Int := (Nat.log2 a.num.natAbs : Int) - (Nat.log2 a.den : Int)
  if (2 : ℚ) ^ e ≤ a then e else e - 1

/-- The decimal exponent of a positive number: `10 ^ (n - 1) ≤ a < 10 ^ n`. -/
def decimalExponent (a : ℚ) : Int :=
  let e : Int := (Nat.log 10 a.num.natAbs : Int) - (Nat.log 10 a.den : Int)
  if (10 : ℚ) ^ e ≤ a then e + 1 else e

/-- Rounding to the nearest integer, a tie going to the even one. -/
def roundHalfEven (a : ℚ) : Int :=
  if a - ⌊a⌋ < 1 / 2 then ⌊a⌋
  else if 1 / 2 < a - ⌊a⌋ then ⌊a⌋ + 1
  else if ⌊a⌋ % 2 = 0 then ⌊a⌋ else ⌊a⌋ + 1

/-- The double nearest to a number (for a magnitude in the range of the
doubles): 53 significant bits, the exponent not below that of the subnormal
numbers, a tie going to the even significand. -/
def toDouble (q : ℚ) : ℚ :=
  if q = 0 then 0
  else
    let ulp : ℚ := 2 ^ (max (binaryExponent |q|) (-1022) - 52)
    (if q < 0 then -1 else 1) * roundHalfEven (|q| / ulp) * ulp

/-- The candidates with `k` significant digits for the decimal of the
positive double `x`: the two neighbours of `x` on the grid of step
`10 ^ (n - k)` that read back as `x`, the nearer one first. -/
def candidates (x : ℚ) (n : Int) (k : Nat) : List ℚ :=
  let step : ℚ := 10 ^ (n - k)
  let lo : ℚ := ⌊x / step⌋ * step
  let hi : ℚ := lo + step
  let near := if x - lo < hi - x then [lo, hi]
    else if hi - x < x - lo then [hi, lo]
    else if ⌊x / step⌋ % 2 = 0 then [lo, hi] else [hi, lo]
  near.filter fun c => decide (toDouble c = x)

/-- The shortest decimal that reads back as the positive double `x`, the
nearest one to `x` among those: at most 17 significant digits are needed. -/
def shortestDecimal (x : ℚ) : ℚ :=
  let n := decimalExponent x
  ((List.range 17).map (· + 1)).foldr
    (fun k rest => match candidates x n k with
      | c :: _ => c
      | [] => rest) x

/-- The digits of a positive decimal `d` without its trailing zeros, and
the exponent `n` with `d = 0.d₁d₂… × 10 ^ n`. -/
def decimalDigits (d : ℚ) : List Char × Int :=
  let n := decimalExponent d
  let scaled : Nat := (d * 10 ^ (17 - n)).num.natAbs
  let digits := (Nat.toDigits 10 scaled)
  ((digits.reverse.dropWhile (· = '0')).reverse, n + ((digits.length : Int) - 17))

/-- The text of `Number::toString` for the digits `ds` and the exponent `n`
of the shortest decimal `0.d₁d₂… × 10 ^ n`. -/
def formatDecimal (ds : List Char) (n : Int) : String :=
  let k : Int := ds.length
  if k ≤ n ∧ n ≤ 21 then String.mk (ds ++ List.replicate (n - k).toNat '0')
  else if 0 < n ∧ n ≤ 21 then String.mk (ds.take n.toNat ++ '.' :: ds.drop n.toNat)
  else if -6 < n ∧ n ≤ 0 then String.mk ('0' :: '.' :: List.replicate (-n).toNat '0' ++ ds)
  else
    let e := n - 1
    let tail := "e" ++ (if 0 ≤ e then "+" else "-") ++ toString e.natAbs
    match ds with
    | [d] => String.singleton d ++ tail
    | d :: rest => String.mk (d :: '.' :: rest) ++ tail
    | [] => tail

/-- The conversion `Number::toString`: the shortest decimal that reads back
as the same double, in plain notation for an exponent from -6 to 21 and in
exponent notation beyond. An integer below `2 ^ 53` in magnitude is its own
shortest decimal and prints as its digits. -/
def numToString (q : ℚ) : String :=
  if q.den = 1 ∧ q.num.natAbs < 9007199254740992 then toString q.num
  else if toDouble q = 0 then "0"
  else
    let p := decimalDigits (shortestDecimal |toDouble q|)
    (if q < 0 then "-" else "") ++ formatDecimal p.1 p.2

mutual
/-- The conversion `ToString(v)` of JavaScript, which is also `v.toString()`
where that exists: an array joins its elements with a comma and an object
prints as `[object Object]`. An object with an own property `toString` (in a
payload that property is never a function) has no string form: both the
method call and the conversion throw a `TypeError`, also from inside an
array. -/
def toStr : JVal → Except JsError String
  | undefined => .ok "undefined"
  | null => .ok "null"
  | bool b => .ok (if b then "true" else "false")
  | num q => .ok (numToString q)
  | str s => .ok s
  | arr xs =>
    match joinItems xs with
    | .error e => .error e
    | .ok items => .ok (",".intercalate items)
  | obj props =>
    if props.any (fun p => p.1 == "toString") then .error .typeError
    else .ok "[object Object]"
/-- The items of `Array.prototype.join`: `null` and `undefined` print as the
empty string, the first element without a string form ends the loop. -/
def joinItems : List JVal → Except JsError (List String)
  | [] => .ok []
  | x :: xs =>
    match (match x with
      | undefined => (Except.ok "" : Except JsError String)
      | null => Except.ok ""
      | y => toStr y) with
    | .error e => .error e
    | .ok item =>
      match joinItems xs with
      | .error e => .error e
      | .ok items => .ok (item :: items)
end

end JVal

/-- The function `Math.round(q)`: the integer nearest to `q`, a tie going
up. -/
def Math.round (q : ℚ) : Int := ⌊q + 1 / 2⌋

/-- Uppercase mappings, code points 181 to 583. -/
def upperTableA : List (Nat × List Nat) :=
  [
   (181, [924]), (223, [83, 83]), (224, [192]), (225, [193]), (226, [194]), (227, [195]),
   (228, [196]), (229, [197]), (230, [198]), (231, [199]), (232, [200]), (233, [201]),
   (234, [202]), (235, [203]), (236, [204]), (237, [205]), (238, [206]), (239, [207]),
   (240, [208]), (241, [209]), (242, [210]), (243, [211]), (244, [212]), (245, [213]),
   (246, [214]), (248, [216]), (249, [217]), (250, [218]), (251, [219]), (252, [220]),
   (253, [221]), (254, [222]), (255, [376]), (257, [256]), (259, [258]), (261, [260]),
   (263, [262]), (265, [264]), (267, [266]), (269, [268]), (271, [270]), (273, [272]),
   (275, [274]), (277, [276]), (279, [278]), (281, [280]), (283, [282]), (285, [284]),
   (287, [286]), (289, [288]), (291, [290]), (293, [292]), (295, [294]), (297, [296]),
   (299, [298]), (301, [300]), (303, [302]), (305, [73]), (307, [306]), (309, [308]),
   (311, [310]), (314, [313]), (316, [315]), (318, [317]), (320, [319]), (322, [321]),
   (324, [323]), (326, [325]), (328, [327]), (329, [700, 78]), (331, [330]), (333, [332]),
   (335, [334]), (337, [336]), (339, [338]), (341, [340]), (343, [342]), (345, [344]),
   (347, [346]), (349, [348]), (351, [350]), (353, [352]), (355, [354]), (357, [356]),
   (359, [358]), (361, [360]), (363, [362]), (365, [364]), (367, [366]), (369, [368]),
   (371, [370]), (373, [372]), (375, [374]), (378, [377]), (380, [379]), (382, [381]),
   (383, [83]), (384, [579]), (387, [386]), (389, [388]), (392, [391]), (396, [395]),
   (402, [401]), (405, [502]), (409, [408]), (410, [573]), (414, [544]), (417, [416]),
   (419, [418]), (421, [420]), (424, [423]), (429, [428]), (432, [431]), (436, [435]),
   (438, [437]), (441, [440]), (445, [444]), (447, [503]), (453, [452]), (454, [452]),
   (456, [455]), (457, [455]), (459, [458]), (460, [458]), (462, [461]), (464, [463]),
   (466, [465]), (468, [467]), (470, [469]), (472, [471]), (474, [473]), (476, [475]),
   (477, [398]), (479, [478]), (481, [480]), (483, [482]), (485, [484]), (487, [486]),
   (489, [488]), (491, [490]), (493, [492]), (495, [494]), (496, [74, 780]), (498, [497]),
   (499, [497]), (501, [500]), (505, [504]), (507, [506]), (509, [508]), (511, [510]),
   (513, [512]), (515, [514]), (517, [516]), (519, [518]), (521, [520]), (523, [522]),
   (525, [524]), (527, [526]), (529, [528]), (531, [530]), (533, [532]), (535, [534]),
   (537, [536]), (539, [538]), (541, [540]), (543, [542]), (547, [546]), (549, [548]),
   (551, [550]), (553, [552]), (555, [554]), (557, [556]), (559, [558]), (561, [560]),
   (563, [562]), (572, [571]), (575, [11390]), (576, [11391]), (578, [577]), (583, [582])
  ]

/-- Uppercase mappings, code points 585 to 1175. -/
def upperTableB : List (Nat × List Nat) :=
  [
   (585, [584]), (587, [586]), (589, [588]), (591, [590]), (592, [11375]), (593, [11373]),
   (594, [11376]), (595, [385]), (596, [390]), (598, [393]), (599, [394]), (601, [399]),
   (603, [400]), (604, [42923]), (608, [403]), (609, [42924]), (611, [404]), (613, [42893]),
   (614, [42922]), (616, [407]), (617, [406]), (618, [42926]), (619, [11362]), (620, [42925]),
   (623, [412]), (625, [11374]), (626, [413]), (629, [415]), (637, [11364]), (640, [422]),
   (642, [42949]), (643, [425]), (647, [42929]), (648, [430]), (649, [580]), (650, [433]),
   (651, [434]), (652, [581]), (658, [439]), (669, [42930]), (670, [42928]), (837, [921]),
   (881, [880]), (883, [882]), (887, [886]), (891, [1021]), (892, [1022]), (893, [1023]),
   (912, [921, 776, 769]), (940, [902]), (941, [904]), (942, [905]), (943, [906]),
   (944, [933, 776, 769]), (945, [913]), (946, [914]), (947, [915]), (948, [916]), (949, [917]),
   (950, [918]), (951, [919]), (952, [920]), (953, [921]), (954, [922]), (955, [923]),
   (956, [924]), (957, [925]), (958, [926]), (959, [927]), (960, [928]), (961, [929]),
   (962, [931]), (963, [931]), (964, [932]), (965, [933]), (966, [934]), (967, [935]),
   (968, [936]), (969, [937]), (970, [938]), (971, [939]), (972, [908]), (973, [910]),
   (974, [911]), (976, [914]), (977, [920]), (981, [934]), (982, [928]), (983, [975]),
   (985, [984]), (987, [986]), (989, [988]), (991, [990]), (993, [992]), (995, [994]),
   (997, [996]), (999, [998]), (1001, [1000]), (1003, [1002]), (1005, [1004]), (1007, [1006]),
   (1008, [922]), (1009, [929]), (1010, [1017]), (1011, [895]), (1013, [917]), (1016, [1015]),
   (1019, [1018]), (1072, [1040]), (1073, [1041]), (1074, [1042]), (1075, [1043]),
   (1076, [1044]), (1077, [1045]), (1078, [1046]), (1079, [1047]), (1080, [1048]),
   (1081, [1049]), (1082, [1050]), (1083, [1051]), (1084, [1052]), (1085, [1053]),
   (1086, [1054]), (1087, [1055]), (1088, [1056]), (1089, [1057]), (1090, [1058]),
   (1091, [1059]), (1092, [1060]), (1093, [1061]), (1094, [1062]), (1095, [1063]),
   (1096, [1064]), (1097, [1065]), (1098, [1066]), (1099, [1067]), (1100, [1068]),
   (1101, [1069]), (1102, [1070]), (1103, [1071]), (1104, [1024]), (1105, [1025]),
   (1106, [1026]), (1107, [1027]), (1108, [1028]), (1109, [1029]), (1110, [1030]),
   (1111, [1031]), (1112, [1032]), (1113, [1033]), (1114, [1034]), (1115, [1035]),
   (1116, [1036]), (1117, [1037]), (1118, [1038]), (1119, [1039]), (1121, [1120]),
   (1123, [1122]), (1125, [1124]), (1127, [1126]), (1129, [1128]), (1131, [1130]),
   (1133, [1132]), (1135, [1134]), (1137, [1136]), (1139, [1138]), (1141, [1140]),
   (1143, [1142]), (1145, [1144]), (1147, [1146]), (1149, [1148]), (1151, [1150]),
   (1153, [1152]), (1163, [1162]), (1165, [1164]), (1167, [1166]), (1169, [1168]),
   (1171, [1170]), (1173, [1172]), (1175, [1174])
  ]

/-- Uppercase mappings, code points 1177 to 7681. -/
def upperTableC : List (Nat × List Nat) :=
  [
   (1177, [1176]), (1179, [1178]), (1181, [1180]), (1183, [1182]), (1185, [1184]),
   (1187, [1186]), (1189, [1188]), (1191, [1190]), (1193, [1192]), (1195, [1194]),
   (1197, [1196]), (1199, [1198]), (1201, [1200]), (1203, [1202]), (1205, [1204]),
   (1207, [1206]), (1209, [1208]), (1211, [1210]), (1213, [1212]), (1215, [1214]),
   (1218, [1217]), (1220, [1219]), (1222, [1221]), (1224, [1223]), (1226, [1225]),
   (1228, [1227]), (1230, [1229]), (1231, [1216]), (1233, [1232]), (1235, [1234]),
   (1237, [1236]), (1239, [1238]), (1241, [1240]), (1243, [1242]), (1245, [1244]),
   (1247, [1246]), (1249, [1248]), (1251, [1250]), (1253, [1252]), (1255, [1254]),
   (1257, [1256]), (1259, [1258]), (1261, [1260]), (1263, [1262]), (1265, [1264]),
   (1267, [1266]), (1269, [1268]), (1271, [1270]), (1273, [1272]), (1275, [1274]),
   (1277, [1276]), (1279, [1278]), (1281, [1280]), (1283, [1282]), (1285, [1284]),
   (1287, [1286]), (1289, [1288]), (1291, [1290]), (1293, [1292]), (1295, [1294]),
   (1297, [1296]), (1299, [1298]), (1301, [1300]), (1303, [1302]), (1305, [1304]),
   (1307, [1306]), (1309, [1308]), (1311, [1310]), (1313, [1312]), (1315, [1314]),
   (1317, [1316]), (1319, [1318]), (1321, [1320]), (1323, [1322]), (1325, [1324]),
   (1327, [1326]), (1377, [1329]), (1378, [1330]), (1379, [1331]), (1380, [1332]),
   (1381, [1333]), (1382, [1334]), (1383, [1335]), (1384, [1336]), (1385, [1337]),
   (1386, [1338]), (1387, [1339]), (1388, [1340]), (1389, [1341]), (1390, [1342]),
   (1391, [1343]), (1392, [1344]), (1393, [1345]), (1394, [1346]), (1395, [1347]),
   (1396, [1348]), (1397, [1349]), (1398, [1350]), (1399, [1351]), (1400, [1352]),
   (1401, [1353]), (1402, [1354]), (1403, [1355]), (1404, [1356]), (1405, [1357]),
   (1406, [1358]), (1407, [1359]), (1408, [1360]), (1409, [1361]), (1410, [1362]),
   (1411, [1363]), (1412, [1364]), (1413, [1365]), (1414, [1366]), (1415, [1333, 1362]),
   (4304, [7312]), (4305, [7313]), (4306, [7314]), (4307, [7315]), (4308, [7316]),
   (4309, [7317]), (4310, [7318]), (4311, [7319]), (4312, [7320]), (4313, [7321]),
   (4314, [7322]), (4315, [7323]), (4316, [7324]), (4317, [7325]), (4318, [7326]),
   (4319, [7327]), (4320, [7328]), (4321, [7329]), (4322, [7330]), (4323, [7331]),
   (4324, [7332]), (4325, [7333]), (4326, [7334]), (4327, [7335]), (4328, [7336]),
   (4329, [7337]), (4330, [7338]), (4331, [7339]), (4332, [7340]), (4333, [7341]),
   (4334, [7342]), (4335, [7343]), (4336, [7344]), (4337, [7345]), (4338, [7346]),
   (4339, [7347]), (4340, [7348]), (4341, [7349]), (4342, [7350]), (4343, [7351]),
   (4344, [7352]), (4345, [7353]), (4346, [7354]), (4349, [7357]), (4350, [7358]),
   (4351, [7359]), (5112, [5104]), (5113, [5105]), (5114, [5106]), (5115, [5107]),
   (5116, [5108]), (5117, [5109]), (7296, [1042]), (7297, [1044]), (7298, [1054]),
   (7299, [1057]), (7300, [1058]), (7301, [1058]), (7302, [1066]), (7303, [1122]),
   (7304, [42570]), (7545, [42877]), (7549, [11363]), (7566, [42950]), (7681, [7680])
  ]

/-- Uppercase mappings, code points 7683 to 8039. -/
def upperTableD : List (Nat × List Nat) :=
  [
   (7683, [7682]), (7685, [7684]), (7687, [7686]), (7689, [7688]), (7691, [7690]),
   (7693, [7692]), (7695, [7694]), (7697, [7696]), (7699, [7698]), (7701, [7700]),
   (7703, [7702]), (7705, [7704]), (7707, [7706]), (7709, [7708]), (7711, [7710]),
   (7713, [7712]), (7715, [7714]), (7717, [7716]), (7719, [7718]), (7721, [7720]),
   (7723, [7722]), (7725, [7724]), (7727, [7726]), (7729, [7728]), (7731, [7730]),
   (7733, [7732]), (7735, [7734]), (7737, [7736]), (7739, [7738]), (7741, [7740]),
   (7743, [7742]), (7745, [7744]), (7747, [7746]), (7749, [7748]), (7751, [7750]),
   (7753, [7752]), (7755, [7754]), (7757, [7756]), (7759, [7758]), (7761, [7760]),
   (7763, [7762]), (7765, [7764]), (7767, [7766]), (7769, [7768]), (7771, [7770]),
   (7773, [7772]), (7775, [7774]), (7777, [7776]), (7779, [7778]), (7781, [7780]),
   (7783, [7782]), (7785, [7784]), (7787, [7786]), (7789, [7788]), (7791, [7790]),
   (7793, [7792]), (7795, [7794]), (7797, [7796]), (7799, [7798]), (7801, [7800]),
   (7803, [7802]), (7805, [7804]), (7807, [7806]), (7809, [7808]), (7811, [7810]),
   (7813, [7812]), (7815, [7814]), (7817, [7816]), (7819, [7818]), (7821, [7820]),
   (7823, [7822]), (7825, [7824]), (7827, [7826]), (7829, [7828]), (7830, [72, 817]),
   (7831, [84, 776]), (7832, [87, 778]), (7833, [89, 778]), (7834, [65, 702]), (7835, [7776]),
   (7841, [7840]), (7843, [7842]), (7845, [7844]), (7847, [7846]), (7849, [7848]),
   (7851, [7850]), (7853, [7852]), (7855, [7854]), (7857, [7856]), (7859, [7858]),
   (7861, [7860]), (7863, [7862]), (7865, [7864]), (7867, [7866]), (7869, [7868]),
   (7871, [7870]), (7873, [7872]), (7875, [7874]), (7877, [7876]), (7879, [7878]),
   (7881, [7880]), (7883, [7882]), (7885, [7884]), (7887, [7886]), (7889, [7888]),
   (7891, [7890]), (7893, [7892]), (7895, [7894]), (7897, [7896]), (7899, [7898]),
   (7901, [7900]), (7903, [7902]), (7905, [7904]), (7907, [7906]), (7909, [7908]),
   (7911, [7910]), (7913, [7912]), (7915, [7914]), (7917, [7916]), (7919, [7918]),
   (7921, [7920]), (7923, [7922]), (7925, [7924]), (7927, [7926]), (7929, [7928]),
   (7931, [7930]), (7933, [7932]), (7935, [7934]), (7936, [7944]), (7937, [7945]),
   (7938, [7946]), (7939, [7947]), (7940, [7948]), (7941, [7949]), (7942, [7950]),
   (7943, [7951]), (7952, [7960]), (7953, [7961]), (7954, [7962]), (7955, [7963]),
   (7956, [7964]), (7957, [7965]), (7968, [7976]), (7969, [7977]), (7970, [7978]),
   (7971, [7979]), (7972, [7980]), (7973, [7981]), (7974, [7982]), (7975, [7983]),
   (7984, [7992]), (7985, [7993]), (7986, [7994]), (7987, [7995]), (7988, [7996]),
   (7989, [7997]), (7990, [7998]), (7991, [7999]), (8000, [8008]), (8001, [8009]),
   (8002, [8010]), (8003, [8011]), (8004, [8012]), (8005, [8013]), (8016, [933, 787]),
   (8017, [8025]), (8018, [933, 787, 768]), (8019, [8027]), (8020, [933, 787, 769]),
   (8021, [8029]), (8022, [933, 787, 834]), (8023, [8031]), (8032, [8040]), (8033, [8041]),
   (8034, [8042]), (8035, [8043]), (8036, [8044]), (8037, [8045]), (8038, [8046]),
   (8039, [8047])
  ]

/-- Uppercase mappings, code points 8048 to 11350. -/
def upperTableE : List (Nat × List Nat) :=
  [
   (8048, [8122]), (8049, [8123]), (8050, [8136]), (8051, [8137]), (8052, [8138]),
   (8053, [8139]), (8054, [8154]), (8055, [8155]), (8056, [8184]), (8057, [8185]),
   (8058, [8170]), (8059, [8171]), (8060, [8186]), (8061, [8187]), (8064, [7944, 921]),
   (8065, [7945, 921]), (8066, [7946, 921]), (8067, [7947, 921]), (8068, [7948, 921]),
   (8069, [7949, 921]), (8070, [7950, 921]), (8071, [7951, 921]), (8072, [7944, 921]),
   (8073, [7945, 921]), (8074, [7946, 921]), (8075, [7947, 921]), (8076, [7948, 921]),
   (8077, [7949, 921]), (8078, [7950, 921]), (8079, [7951, 921]), (8080, [7976, 921]),
   (8081, [7977, 921]), (8082, [7978, 921]), (8083, [7979, 921]), (8084, [7980, 921]),
   (8085, [7981, 921]), (8086, [7982, 921]), (8087, [7983, 921]), (8088, [7976, 921]),
   (8089, [7977, 921]), (8090, [7978, 921]), (8091, [7979, 921]), (8092, [7980, 921]),
   (8093, [7981, 921]), (8094, [7982, 921]), (8095, [7983, 921]), (8096, [8040, 921]),
   (8097, [8041, 921]), (8098, [8042, 921]), (8099, [8043, 921]), (8100, [8044, 921]),
   (8101, [8045, 921]), (8102, [8046, 921]), (8103, [8047, 921]), (8104, [8040, 921]),
   (8105, [8041, 921]), (8106, [8042, 921]), (8107, [8043, 921]), (8108, [8044, 921]),
   (8109, [8045, 921]), (8110, [8046, 921]), (8111, [8047, 921]), (8112, [8120]), (8113, [8121]),
   (8114, [8122, 921]), (8115, [913, 921]), (8116, [902, 921]), (8118, [913, 834]),
   (8119, [913, 834, 921]), (8124, [913, 921]), (8126, [921]), (8130, [8138, 921]),
   (8131, [919, 921]), (8132, [905, 921]), (8134, [919, 834]), (8135, [919, 834, 921]),
   (8140, [919, 921]), (8144, [8152]), (8145, [8153]), (8146, [921, 776, 768]),
   (8147, [921, 776, 769]), (8150, [921, 834]), (8151, [921, 776, 834]), (8160, [8168]),
   (8161, [8169]), (8162, [933, 776, 768]), (8163, [933, 776, 769]), (8164, [929, 787]),
   (8165, [8172]), (8166, [933, 834]), (8167, [933, 776, 834]), (8178, [8186, 921]),
   (8179, [937, 921]), (8180, [911, 921]), (8182, [937, 834]), (8183, [937, 834, 921]),
   (8188, [937, 921]), (8526, [8498]), (8560, [8544]), (8561, [8545]), (8562, [8546]),
   (8563, [8547]), (8564, [8548]), (8565, [8549]), (8566, [8550]), (8567, [8551]),
   (8568, [8552]), (8569, [8553]), (8570, [8554]), (8571, [8555]), (8572, [8556]),
   (8573, [8557]), (8574, [8558]), (8575, [8559]), (8580, [8579]), (9424, [9398]),
   (9425, [9399]), (9426, [9400]), (9427, [9401]), (9428, [9402]), (9429, [9403]),
   (9430, [9404]), (9431, [9405]), (9432, [9406]), (9433, [9407]), (9434, [9408]),
   (9435, [9409]), (9436, [9410]), (9437, [9411]), (9438, [9412]), (9439, [9413]),
   (9440, [9414]), (9441, [9415]), (9442, [9416]), (9443, [9417]), (9444, [9418]),
   (9445, [9419]), (9446, [9420]), (9447, [9421]), (9448, [9422]), (9449, [9423]),
   (11312, [11264]), (11313, [11265]), (11314, [11266]), (11315, [11267]), (11316, [11268]),
   (11317, [11269]), (11318, [11270]), (11319, [11271]), (11320, [11272]), (11321, [11273]),
   (11322, [11274]), (11323, [11275]), (11324, [11276]), (11325, [11277]), (11326, [11278]),
   (11327, [11279]), (11328, [11280]), (11329, [11281]), (11330, [11282]), (11331, [11283]),
   (11332, [11284]), (11333, [11285]), (11334, [11286]), (11335, [11287]), (11336, [11288]),
   (11337, [11289]), (11338, [11290]), (11339, [11291]), (11340, [11292]), (11341, [11293]),
   (11342, [11294]), (11343, [11295]), (11344, [11296]), (11345, [11297]), (11346, [11298]),
   (11347, [11299]), (11348, [11300]), (11349, [11301]), (11350, [11302])
  ]

/-- Uppercase mappings, code points 11351 to 42853. -/
def upperTableF : List (Nat × List Nat) :=
  [
   (11351, [11303]), (11352, [11304]), (11353, [11305]), (11354, [11306]), (11355, [11307]),
   (11356, [11308]), (11357, [11309]), (11358, [11310]), (11359, [11311]), (11361, [11360]),
   (11365, [570]), (11366, [574]), (11368, [11367]), (11370, [11369]), (11372, [11371]),
   (11379, [11378]), (11382, [11381]), (11393, [11392]), (11395, [11394]), (11397, [11396]),
   (11399, [11398]), (11401, [11400]), (11403, [11402]), (11405, [11404]), (11407, [11406]),
   (11409, [11408]), (11411, [11410]), (11413, [11412]), (11415, [11414]), (11417, [11416]),
   (11419, [11418]), (11421, [11420]), (11423, [11422]), (11425, [11424]), (11427, [11426]),
   (11429, [11428]), (11431, [11430]), (11433, [11432]), (11435, [11434]), (11437, [11436]),
   (11439, [11438]), (11441, [11440]), (11443, [11442]), (11445, [11444]), (11447, [11446]),
   (11449, [11448]), (11451, [11450]), (11453, [11452]), (11455, [11454]), (11457, [11456]),
   (11459, [11458]), (11461, [11460]), (11463, [11462]), (11465, [11464]), (11467, [11466]),
   (11469, [11468]), (11471, [11470]), (11473, [11472]), (11475, [11474]), (11477, [11476]),
   (11479, [11478]), (11481, [11480]), (11483, [11482]), (11485, [11484]), (11487, [11486]),
   (11489, [11488]), (11491, [11490]), (11500, [11499]), (11502, [11501]), (11507, [11506]),
   (11520, [4256]), (11521, [4257]), (11522, [4258]), (11523, [4259]), (11524, [4260]),
   (11525, [4261]), (11526, [4262]), (11527, [4263]), (11528, [4264]), (11529, [4265]),
   (11530, [4266]), (11531, [4267]), (11532, [4268]), (11533, [4269]), (11534, [4270]),
   (11535, [4271]), (11536, [4272]), (11537, [4273]), (11538, [4274]), (11539, [4275]),
   (11540, [4276]), (11541, [4277]), (11542, [4278]), (11543, [4279]), (11544, [4280]),
   (11545, [4281]), (11546, [4282]), (11547, [4283]), (11548, [4284]), (11549, [4285]),
   (11550, [4286]), (11551, [4287]), (11552, [4288]), (11553, [4289]), (11554, [4290]),
   (11555, [4291]), (11556, [4292]), (11557, [4293]), (11559, [4295]), (11565, [4301]),
   (42561, [42560]), (42563, [42562]), (42565, [42564]), (42567, [42566]), (42569, [42568]),
   (42571, [42570]), (42573, [42572]), (42575, [42574]), (42577, [42576]), (42579, [42578]),
   (42581, [42580]), (42583, [42582]), (42585, [42584]), (42587, [42586]), (42589, [42588]),
   (42591, [42590]), (42593, [42592]), (42595, [42594]), (42597, [42596]), (42599, [42598]),
   (42601, [42600]), (42603, [42602]), (42605, [42604]), (42625, [42624]), (42627, [42626]),
   (42629, [42628]), (42631, [42630]), (42633, [42632]), (42635, [42634]), (42637, [42636]),
   (42639, [42638]), (42641, [42640]), (42643, [42642]), (42645, [42644]), (42647, [42646]),
   (42649, [42648]), (42651, [42650]), (42787, [42786]), (42789, [42788]), (42791, [42790]),
   (42793, [42792]), (42795, [42794]), (42797, [42796]), (42799, [42798]), (42803, [42802]),
   (42805, [42804]), (42807, [42806]), (42809, [42808]), (42811, [42810]), (42813, [42812]),
   (42815, [42814]), (42817, [42816]), (42819, [42818]), (42821, [42820]), (42823, [42822]),
   (42825, [42824]), (42827, [42826]), (42829, [42828]), (42831, [42830]), (42833, [42832]),
   (42835, [42834]), (42837, [42836]), (42839, [42838]), (42841, [42840]), (42843, [42842]),
   (42845, [42844]), (42847, [42846]), (42849, [42848]), (42851, [42850]), (42853, [42852])
  ]

/-- Uppercase mappings, code points 42855 to 65370. -/
def upperTableG : List (Nat × List Nat) :=
  [
   (42855, [42854]), (42857, [42856]), (42859, [42858]), (42861, [42860]), (42863, [42862]),
   (42874, [42873]), (42876, [42875]), (42879, [42878]), (42881, [42880]), (42883, [42882]),
   (42885, [42884]), (42887, [42886]), (42892, [42891]), (42897, [42896]), (42899, [42898]),
   (42900, [42948]), (42903, [42902]), (42905, [42904]), (42907, [42906]), (42909, [42908]),
   (42911, [42910]), (42913, [42912]), (42915, [42914]), (42917, [42916]), (42919, [42918]),
   (42921, [42920]), (42933, [42932]), (42935, [42934]), (42937, [42936]), (42939, [42938]),
   (42941, [42940]), (42943, [42942]), (42945, [42944]), (42947, [42946]), (42952, [42951]),
   (42954, [42953]), (42961, [42960]), (42967, [42966]), (42969, [42968]), (42998, [42997]),
   (43859, [42931]), (43888, [5024]), (43889, [5025]), (43890, [5026]), (43891, [5027]),
   (43892, [5028]), (43893, [5029]), (43894, [5030]), (43895, [5031]), (43896, [5032]),
   (43897, [5033]), (43898, [5034]), (43899, [5035]), (43900, [5036]), (43901, [5037]),
   (43902, [5038]), (43903, [5039]), (43904, [5040]), (43905, [5041]), (43906, [5042]),
   (43907, [5043]), (43908, [5044]), (43909, [5045]), (43910, [5046]), (43911, [5047]),
   (43912, [5048]), (43913, [5049]), (43914, [5050]), (43915, [5051]), (43916, [5052]),
   (43917, [5053]), (43918, [5054]), (43919, [5055]), (43920, [5056]), (43921, [5057]),
   (43922, [5058]), (43923, [5059]), (43924, [5060]), (43925, [5061]), (43926, [5062]),
   (43927, [5063]), (43928, [5064]), (43929, [5065]), (43930, [5066]), (43931, [5067]),
   (43932, [5068]), (43933, [5069]), (43934, [5070]), (43935, [5071]), (43936, [5072]),
   (43937, [5073]), (43938, [5074]), (43939, [5075]), (43940, [5076]), (43941, [5077]),
   (43942, [5078]), (43943, [5079]), (43944, [5080]), (43945, [5081]), (43946, [5082]),
   (43947, [5083]), (43948, [5084]), (43949, [5085]), (43950, [5086]), (43951, [5087]),
   (43952, [5088]), (43953, [5089]), (43954, [5090]), (43955, [5091]), (43956, [5092]),
   (43957, [5093]), (43958, [5094]), (43959, [5095]), (43960, [5096]), (43961, [5097]),
   (43962, [5098]), (43963, [5099]), (43964, [5100]), (43965, [5101]), (43966, [5102]),
   (43967, [5103]), (64256, [70, 70]), (64257, [70, 73]), (64258, [70, 76]),
   (64259, [70, 70, 73]), (64260, [70, 70, 76]), (64261, [83, 84]), (64262, [83, 84]),
   (64275, [1348, 1350]), (64276, [1348, 1333]), (64277, [1348, 1339]), (64278, [1358, 1350]),
   (64279, [1348, 1341]), (65345, [65313]), (65346, [65314]), (65347, [65315]), (65348, [65316]),
   (65349, [65317]), (65350, [65318]), (65351, [65319]), (65352, [65320]), (65353, [65321]),
   (65354, [65322]), (65355, [65323]), (65356, [65324]), (65357, [65325]), (65358, [65326]),
   (65359, [65327]), (65360, [65328]), (65361, [65329]), (65362, [65330]), (65363, [65331]),
   (65364, [65332]), (65365, [65333]), (65366, [65334]), (65367, [65335]), (65368, [65336]),
   (65369, [65337]), (65370, [65338])
  ]

/-- The characters beyond ASCII that `toUpperCase` changes, each with the
code points of its uppercase form (Unicode 14.0; the full mapping, in which
the uppercase of one character can be several). All of them lie in the Basic
Multilingual Plane. -/
def upperTable : List (Nat × List Nat) :=
  upperTableA ++ upperTableB ++ upperTableC ++ upperTableD ++ upperTableE ++ upperTableF ++ upperTableG

/-- The method `toUpperCase` on a string of one character. -/
def toUpperCase (c : Char) : String :=
  if c.toNat < 128 then String.singleton c.toUpper
  else
    match upperTable.lookup c.toNat with
    | some units => String.mk (units.map Char.ofNat)
    | none => String.singleton c

/-- The expression `name.charAt(0).toUpperCase() + name.slice(1)`. When the
first character lies outside the Basic Multilingual Plane, `charAt(0)` is a
lone surrogate, which `toUpperCase` leaves alone: the name is unchanged. -/
def capitalize (name : String) : String :=
  match name.data with
  | [] => ""
  | c :: cs => toUpperCase c ++ String.mk cs

/-- The UTF-8 bytes of a character. -/
def utf8Bytes (c : Char) : List Nat :=
  let n := c.toNat
  if n < 128 then [n]
  else if n < 2048 then [192 + n / 64, 128 + n % 64]
  else if n < 65536 then [224 + n / 4096, 128 + n / 64 % 64, 128 + n % 64]
  else [240 + n / 262144, 128 + n / 4096 % 64, 128 + n / 64 % 64, 128 + n % 64]

/-- The characters `encodeURIComponent` leaves alone besides letters and
digits: `- _ . ! ~ * ( )` and the apostrophe. -/
def uriUnreservedMarks : List Char :=
  ['-', '_', '.', '!', '~', '*', '(', ')', Char.ofNat 39]

/-- The function `encodeURIComponent` on one character: the unreserved
characters stand for themselves, every other one is percent-encoded byte by
byte. -/
def encodeChar (c : Char) : String :=
  if c.isAlphanum || uriUnreservedMarks.elem c then String.singleton c
  else
    String.join ((utf8Bytes c).map fun b =>
      "%" ++ String.singleton (Nat.digitChar (b / 16)).toUpper
          ++ String.singleton (Nat.digitChar (b % 16)).toUpper)

/-- The function `encodeURIComponent(s)`. -/
def encodeURIComponent (s : String) : String :=
  String.join (s.toList.map encodeChar)

/-- The call `xs.map(f)` for a callback that can throw: the first exception
ends the loop. -/
def tryMap {α β : Type} (f : α → Except JsError β) : List α → Except JsError (List β)
  | [] => .ok []
  | x :: xs =>
    match f x with
    | .error e => .error e
    | .ok y =>
      match tryMap f xs with
      | .error e => .error e
      | .ok ys => .ok (y :: ys)

/-! ## The page and the network -/

/-- An HTTP request as `fetch` issues it. -/
structure Request where
  method : String
  url : String
  deriving DecidableEq, Repr

/-- An HTTP response as `fetch` resolves with one; `body` is the parsed
JSON body, `none` when the body is not JSON (`res.json()` rejects). -/
structure Response where
  status : Nat
  statusText : String
  body : Option JVal

/-- The flag `res.ok`: the status is in the range 200-299. -/
def Response.ok (res : Response) : Bool := decide (200 ≤ res.status ∧ res.status ≤ 299)

/-- The network as an oracle: the response to a request, or `none` when the
request never completes (`fetch` rejects). -/
abbrev Network := Request → Option Response

/-- A line written to the console. -/
inductive LogLine where
  | info (msg : String)
  | error (msg : String) (err : JsError)
  deriving DecidableEq, Repr

/-- The page as the script sees it. The elements that the script reaches
through a null guard (`el.x?.`, `node &&`, `if (!el.x)`) are optional; the
ones it dereferences without a guard (`el.statusList`,
`el.detailsContainer`) are taken to exist. The click handlers that
`status.render` and `status.renderTop` attach to the `[data-cancel]` buttons
call `queue.cancel` with the button's attribute and are no part of this
record. -/
structure World where
  /-- The element `el.statusLoading`: whether its class list holds `hidden` -/
  statusLoading : Option Bool
  /-- The text `el.statusList.innerHTML`, the full panel -/
  statusList : String
  /-- The text `el.activeDownloadsCount.textContent` -/
  activeDownloadsCount : Option String
  /-- The element `el.activeTopSec`, the active strip: whether its class list holds `hidden` -/
  activeTopSec : Option Bool
  /-- The text `el.activeTopList.innerHTML`, the list of the active strip -/
  activeTopList : Option String
  /-- The element `el.modalOverlay`: whether its class list holds `active` -/
  modalOverlay : Option Bool
  /-- The text `el.detailsContainer.innerHTML`, the details view -/
  detailsContainer : String
  /-- what was written to the console, oldest first -/
  console : List LogLine
  /-- the requests issued with `fetch`, oldest first -/
  requests : List Request
  deriving DecidableEq, Repr

/-- The call `fetch(url, opts)`: the request is issued and the network answers. -/
def fetch (net : Network) (req : Request) (w : World) : Option Response × World :=
  (net req, { w with requests := w.requests ++ [req] })

/-- The call `console.error(msg, err)`. -/
def consoleError (msg : String) (err : JsError) (w : World) : World :=
  { w with console := w.console ++ [LogLine.error msg err] }

namespace API

def download : String := "/request/api/download"
def status : String := "/request/api/status"
def cancelDownload : String := "/request/api/download"
def clearCompleted : String := "/request/api/queue/clear"
def activeDownloads : String := "/request/api/downloads/active"

end API

/-! ## Utils -/

/-- The helper `utils.show(node)`: `node && node.classList.remove('hidden')`. -/
def utils.show (node : Option Bool) : Option Bool := node.map fun _ => false

/-- The helper `utils.hide(node)`: `node && node.classList.add('hidden')`. -/
def utils.hide (node : Option Bool) : Option Bool := node.map fun _ => true

/-- The helper `utils.j(url)`: fetch, throw on a response that is not ok,
parse the body as JSON. -/
def utils.j (net : Network) (url : String) (w : World) : Except JsError JVal × World :=
  match fetch net ⟨"GET", url⟩ w with
  | (none, w1) => (.error .networkError, w1)
  | (some res, w1) =>
    if !res.ok then (.error (.error (toString res.status ++ " " ++ res.statusText)), w1)
    else
      match res.body with
      | none => (.error .syntaxError, w1)
      | some v => (.ok v, w1)

/-- The helper `utils.toast(msg)`: `console.info(msg)`. -/
def utils.toast (msg : String) (w : World) : World :=
  { w with console := w.console ++ [LogLine.info msg] }

/-- The helper `utils.e(text)`: `(text ?? '').toString()`. -/
def utils.e (text : JVal) : Except JsError String :=
  if text.isNullish then .ok "" else text.toStr

/-! ## Modal -/

/-- The method `modal.close()`. -/
def modal.close (w : World) : World :=
  { w with modalOverlay := w.modalOverlay.map (fun _ => false), detailsContainer := "" }

/-! ## Status -/

namespace status

/-- An entry of `statusMap`. -/
structure Style where
  icon : String
  color : String
  deriving DecidableEq, Repr

/-- The own properties of the object `statusMap` of `status.render`. -/
def statusMap (name : String) : Option Style :=
  if name = "queued" then
    some ⟨"M8 12h.01M12 12h.01M16 12h.01M21 12a9 9 0 11-18 0 9 9 0 0118 0z", "yellow"⟩
  else if name = "downloading" then
    some ⟨"M4 16v1h16v-1l-2-6-4 4-4-4-2 6zM4 4h16v1H4z", "blue"⟩
  else if name = "completed" then
    some ⟨"M9 12l2 2 4-4m6 2a9 9 0 11-18 0 9 9 0 0118 0z", "green"⟩
  else if name = "error" then
    some ⟨"M10 14l2-2m0 0l2-2m-2 2l-2-2m2 2l2 2m7-2a9 9 0 11-18 0 9 9 0 0118 0z", "red"⟩
  else none

/-- The property names every object inherits from `Object.prototype`: for
these `statusMap[name]` is a truthy value that is no style. -/
def inheritedNames : List String :=
  ["constructor", "hasOwnProperty", "isPrototypeOf", "propertyIsEnumerable",
   "toLocaleString", "toString", "valueOf", "__proto__", "__defineGetter__",
   "__defineSetter__", "__lookupGetter__", "__lookupSetter__"]

/-- The style of a row as the template prints it: `s.icon` and `s.color`
for `s = statusMap[name] || { icon: '', color: 'gray' }`. An inherited
property has neither field, and the template prints `undefined`. -/
def styleOf (name : String) : Style :=
  match statusMap name with
  | some s => s
  | none => if name ∈ inheritedNames then ⟨"undefined", "undefined"⟩ else ⟨"", "gray"⟩

namespace render

/-- The cancel button of a row of the full panel (the template of `actions`). -/
def cancelButton (cancelId : String) : String :=
  "<button class=\"px-3 py-1 rounded-md border text-xs font-semibold\" data-cancel=\"" ++ cancelId ++ "\" style=\"border-color: var(--border-muted);\">Cancel</button>"

/-- The progress bar of a row of the full panel (the template of `progress`). -/
def progressBar (color : String) (width : Int) : String :=
  "<div class=\"h-2 rounded overflow-hidden\" style=\"background-color: var(--bg);\"><div class=\"h-2 bg-" ++ color ++ "-500\" style=\"width:" ++ JVal.numToString width ++ "%\"></div></div>"

/-- The template of a row of the full panel. -/
def rowHtml (color icon title label actions progress : String) : String :=
  "\n" ++
  "            <li class=\"p-4 rounded-lg flex flex-col gap-3\" style=\"background-color: var(--card-background);\">\n" ++
  "              <div class=\"flex items-center gap-3\">\n" ++
  "                <svg xmlns=\"http://www.w3.org/2000/svg\" class=\"h-6 w-6 text-" ++
  color ++
  "-500 shrink-0\" fill=\"none\" viewBox=\"0 0 24 24\" stroke=\"currentColor\"><path stroke-linecap=\"round\" stroke-linejoin=\"round\" stroke-width=\"2\" d=\"" ++
  icon ++
  "\" /></svg>\n" ++
  "                <div class=\"flex-1\">\n" ++
  "                  <p class=\"font-semibold\">" ++
  title ++
  "</p>\n" ++
  "                  <p class=\"text-sm opacity-70\">" ++
  label ++
  "</p>\n" ++
  "                </div>\n" ++
  "                <div class=\"shrink-0\">" ++
  actions ++
  "</div>\n" ++
  "              </div>\n" ++
  "              " ++
  progress ++
  "\n" ++
  "            </li>"

/-- The template of a section of the full panel. -/
def sectionHtml (name rows : String) : String :=
  "\n" ++
  "          <div>\n" ++
  "            <h3 class=\"text-lg font-semibold mb-3\">" ++
  capitalize name ++
  "</h3>\n" ++
  "            <ul class=\"space-y-3\">" ++
  rows ++
  "</ul>\n" ++
  "          </div>"

/-- The placeholder of the full panel. -/
def noItemsHtml : String :=
  "<div class=\"text-center p-6 rounded-lg\" style=\"background-color: var(--card-background);\">No items in queue.</div>"

/-- The constant `actions` of the row callback: a cancel button for the
names `queued` and `downloading`, the empty string otherwise. -/
def actions (name : String) (b : JVal) : Except JsError String :=
  if name = "queued" ∨ name = "downloading" then
    match b.get "id" with
    | .error e => .error e
    | .ok cancelId =>
      match utils.e cancelId with
      | .error e => .error e
      | .ok text => .ok (cancelButton text)
  else .ok ""

/-- The constant `progress` of the row callback: a bar for the name
`downloading` when `typeof b.progress === 'number'`, of width
`Math.round(b.progress)` percent. -/
def progress (name : String) (b : JVal) : Except JsError String :=
  if name = "downloading" then
    match b.get "progress" with
    | .error e => .error e
    | .ok (.num p) => .ok (progressBar (styleOf name).color (Math.round p))
    | .ok _ => .ok ""
  else .ok ""

/-- The row callback of `status.render`: the markup of the job `b` in the
bucket `name`. -/
def row (name : String) (b : JVal) : Except JsError String :=
  match actions name b with
  | .error e => .error e
  | .ok acts =>
    match progress name b with
    | .error e => .error e
    | .ok prog =>
      match b.get "title" with
      | .error e => .error e
      | .ok title =>
        match utils.e (title.or (.str "-")) with
        | .error e => .error e
        | .ok text =>
          .ok (rowHtml (styleOf name).color (styleOf name).icon text (capitalize name) acts prog)

/-- The loop of `status.render` over `Object.entries(data || {})`: the array
`sections`. -/
def sections : List (String × JVal) → Except JsError (List String)
  | [] => .ok []
  | (name, items) :: rest =>
    if !items.truthy || items.keys.length == 0 then sections rest
    else
      match tryMap (row name) items.values with
      | .error e => .error e
      | .ok rows =>
        match sections rest with
        | .error e => .error e
        | .ok more => .ok (sectionHtml name (String.join rows) :: more)

end render

/-- The method `status.render(data)`: the full panel. -/
def render (data : JVal) (w : World) : Except JsError World :=
  match render.sections (data.or (.obj [])).entries with
  | .error e => .error e
  | .ok secs =>
    .ok { w with
      statusList :=
        if String.join secs ≠ "" then String.join secs else render.noItemsHtml }

namespace renderTop

/-- The progress bar of a row of the active strip (the template of `prog`). -/
def progressBar (width : Int) : String :=
  "<div class=\"h-1.5 bg-blue-500\" style=\"width:" ++ JVal.numToString width ++ "%\"></div>"

/-- The cancel button of a row of the active strip (the template of `cancel`). -/
def cancelButton (cancelId : String) : String :=
  "<button class=\"px-2 py-1 rounded-md border text-xs font-semibold\" data-cancel=\"" ++ cancelId ++ "\" style=\"border-color: var(--border-muted);\">Cancel</button>"

/-- The template of a row of the active strip. -/
def rowHtml (title cancel prog : String) : String :=
  "\n" ++
  "          <div class=\"p-3 rounded-lg\" style=\"background-color: var(--card-background);\">\n" ++
  "            <div class=\"flex items-center justify-between gap-3 mb-2\">\n" ++
  "              <p class=\"text-sm font-semibold truncate\">" ++
  title ++
  "</p>\n" ++
  "              <div class=\"shrink-0\">" ++
  cancel ++
  "</div>\n" ++
  "            </div>\n" ++
  "            <div class=\"h-1.5 rounded overflow-hidden\" style=\"background-color: var(--bg);\">" ++
  prog ++
  "</div>\n" ++
  "          </div>"

/-- The constant `prog` of the row callback of `status.renderTop`. -/
def prog (b : JVal) : Except JsError String :=
  match b.get "progress" with
  | .error e => .error e
  | .ok (.num p) => .ok (progressBar (Math.round p))
  | .ok _ => .ok ""

/-- The row callback of `status.renderTop`. -/
def row (b : JVal) : Except JsError String :=
  match prog b with
  | .error e => .error e
  | .ok bar =>
    match b.get "id" with
    | .error e => .error e
    | .ok cancelId =>
      match utils.e cancelId with
      | .error e => .error e
      | .ok idText =>
        match b.get "title" with
        | .error e => .error e
        | .ok title =>
          match utils.e (title.or (.str "-")) with
          | .error e => .error e
          | .ok text => .ok (rowHtml text (cancelButton idText) bar)

/-- The constant `downloading` of `status.renderTop`:
`(data && data.downloading) ? Object.values(data.downloading) : []`. -/
def downloading (data : JVal) : List JVal :=
  if data.truthy && (data.prop "downloading").truthy then (data.prop "downloading").values
  else []

end renderTop

/-- The method `status.renderTop(data)`: the active strip. -/
def renderTop (data : JVal) (w : World) : Except JsError World :=
  if w.activeTopSec.isNone || w.activeTopList.isNone then .ok w
  else if (renderTop.downloading data).length == 0 then
    .ok { w with activeTopList := some "", activeTopSec := utils.hide w.activeTopSec }
  else
    match tryMap renderTop.row (renderTop.downloading data) with
    | .error e => .error e
    | .ok rows =>
      .ok { w with
        activeTopList := some (String.join rows), activeTopSec := utils.show w.activeTopSec }

/-- The method `status.updateActive()`: the header badge. -/
def updateActive (net : Network) (w : World) : World :=
  match utils.j net API.activeDownloads w with
  | (.error e, w1) => consoleError "Failed to update active downloads count:" e w1
  | (.ok d, w1) =>
    match d.get "active_downloads" with
    | .error e => consoleError "Failed to update active downloads count:" e w1
    | .ok a =>
      let n := match a with
        | .arr xs => xs.length
        | _ => 0
      { w1 with
        activeDownloadsCount := w1.activeDownloadsCount.map fun _ => "Active: " ++ toString n }

/-- The message of the `catch` block of `status.fetch`. -/
def errorHtml : String := "<div class=\"text-sm opacity-80\">Error loading status.</div>"

/-- The `try` block of `status.fetch` after `utils.show(el.statusLoading)`:
the world it leaves and whether it threw. -/
def fetch.body (net : Network) (w : World) : Except JsError World × World :=
  match utils.j net API.status w with
  | (.error e, w1) => (.error e, w1)
  | (.ok data, w1) =>
    match render data w1 with
    | .error e => (.error e, w1)
    | .ok w2 =>
      match renderTop data w2 with
      | .error e => (.error e, w2)
      | .ok w3 => (.ok (updateActive net w3), w3)

/-- The method `status.fetch()`: one status refresh. The callback of
`updateActive` runs after the `finally` block; the two write different
fields, so the order does not show in the final world. -/
def fetch (net : Network) (w : World) : World :=
  let w0 := { w with statusLoading := utils.show w.statusLoading }
  let w1 :=
    match fetch.body net w0 with
    | (.ok w2, _) => w2
    | (.error _, w2) => { w2 with statusList := errorHtml }
  { w1 with statusLoading := utils.hide w1.statusLoading }

end status

/-! ## Queue, details and the clear button -/

/-- The method `queue.cancel(id)`. -/
def queue.cancel (net : Network) (id : String) (w : World) : World :=
  match fetch net ⟨"DELETE", API.cancelDownload ++ "/" ++ encodeURIComponent id ++ "/cancel"⟩ w with
  | (some _, w1) => status.fetch net w1
  | (none, w1) =>
    utils.toast "Failed to cancel download."
      (consoleError "Cancel download error:" .networkError w1)

/-- The method `bookDetails.download(book)`. When `book.id` has no string
form, `encodeURIComponent(book.id)` throws before the request is issued and
before the handlers are attached: nothing else happens. -/
def bookDetails.download (net : Network) (book : JVal) (w : World) : World :=
  if !book.truthy then w
  else
    match (book.prop "id").toStr with
    | .error _ => w
    | .ok idText =>
      match utils.j net (API.download ++ "?id=" ++ encodeURIComponent idText) w with
      | (.ok _, w1) => status.fetch net (modal.close (utils.toast "Queued for download" w1))
      | (.error e, w1) =>
        utils.toast "Failed to queue download." (consoleError "Download error:" e w1)

/-- The click handler that `initEvents` attaches to `el.clearCompletedBtn`. -/
def initEvents.clearCompleted (net : Network) (w : World) : World :=
  match fetch net ⟨"DELETE", API.clearCompleted⟩ w with
  | (some _, w1) => status.fetch net w1
  | (none, w1) => w1

/-! ## Vocabulary of the specification -/

/-- What a view lists of a job: the displayed title, the id its cancel
control carries and the width of its progress bar, if it has one. -/
structure Listing where
  title : String
  cancelId : String
  width : Option Int
  deriving DecidableEq, Repr

/-- Whether a value has a string form: `ToString` does not throw on it. -/
def JVal.printable (v : JVal) : Bool :=
  match v.toStr with
  | .ok _ => true
  | .error _ => false

/-- The text that `utils.e` returns for a value, the empty text for a value
without a string form. -/
def textOf (v : JVal) : String :=
  match utils.e v with
  | .ok text => text
  | .error _ => ""

/-- A job record: a value that is not `null` or `undefined` and whose id and
title have a string form. -/
def isRecord (b : JVal) : Bool :=
  !b.isNullish && (b.prop "id").printable && (b.prop "title").printable

/-- The listing of a job record: the title (or the placeholder `-`), the id
and the rounded progress when the progress is a number. -/
def listing (b : JVal) : Listing :=
  { title := textOf ((b.prop "title").or (.str "-"))
    cancelId := textOf (b.prop "id")
    width :=
      match b.prop "progress" with
      | .num p => some (Math.round p)
      | _ => none }

/-- The row of the full panel that shows a listing in the bucket `name`: a
cancel control for `queued` and `downloading`, a progress bar for
`downloading` when the listing has a width. -/
def fullRow (name : String) (l : Listing) : String :=
  status.render.rowHtml (status.styleOf name).color (status.styleOf name).icon l.title
    (capitalize name)
    (if name = "queued" ∨ name = "downloading" then status.render.cancelButton l.cancelId else "")
    (if name = "downloading" then
      match l.width with
      | some n => status.render.progressBar (status.styleOf name).color n
      | none => ""
     else "")

/-- The row of the active strip that shows a listing. -/
def stripRow (l : Listing) : String :=
  status.renderTop.rowHtml l.title (status.renderTop.cancelButton l.cancelId)
    (match l.width with
      | some n => status.renderTop.progressBar n
      | none => "")

/-- A bucket with at least one job. -/
def hasJobs (items : JVal) : Bool := !items.entries.isEmpty

/-- The section of the full panel for one entry of the snapshot: the heading
of its key and one row per job. -/
def sectionOf (e : String × JVal) : String :=
  status.render.sectionHtml e.1 (String.join (e.2.values.map fun b => fullRow e.1 (listing b)))

/-- The content of the full panel for a list of sections: the sections one
after the other, or the placeholder when there is none. -/
def panelOf (secs : List String) : String :=
  if secs = [] then status.render.noItemsHtml else String.join secs

/-- Every job of the buckets in `entries` is a record. -/
def jobsAreRecords (entries : List (String × JVal)) : Prop :=
  ∀ e ∈ entries, ∀ b ∈ e.2.values, isRecord b = true

instance (entries : List (String × JVal)) : Decidable (jobsAreRecords entries) :=
  inferInstanceAs (Decidable (∀ e ∈ entries, ∀ b ∈ e.2.values, isRecord b = true))

/-- The four categories of a snapshot, in the order of the specification. -/
def categories : List String := ["queued", "downloading", "completed", "error"]

/-- The clamp of the specification: `p` brought into `[lo, hi]`. -/
def clamp (p lo hi : ℚ) : ℚ := max lo (min p hi)

/-- The request of a status refresh: the one `status.fetch` issues. -/
def statusRequest : Request := ⟨"GET", API.status⟩

/-- The number of status refreshes a world has seen. -/
def statusFetches (w : World) : Nat := w.requests.count statusRequest

/-! ## Concrete inputs -/

/-- A page with every element present: the spinner and the strip hidden,
the details view open. -/
def blankWorld : World :=
  { statusLoading := some true, statusList := "", activeDownloadsCount := some "",
    activeTopSec := some true, activeTopList := some "", modalOverlay := some true,
    detailsContainer := "details", console := [], requests := [] }

/-- A job record with progress 150. -/
def overJob : JVal := .obj [("progress", .num 150)]

/-- A snapshot whose one downloading job has progress 150. -/
def overshoot : JVal := .obj [("downloading", .obj [("1", overJob)])]

/-- The full panel that shows one downloading job without title and id
with a bar of width `n`. -/
def overshootPanel (n : Int) : String :=
  status.render.sectionHtml "downloading"
    (status.render.rowHtml "blue" "M4 16v1h16v-1l-2-6-4 4-4-4-2 6zM4 4h16v1H4z" "-" "Downloading"
      (status.render.cancelButton "") (status.render.progressBar "blue" n))

/-- The list of the active strip that shows one downloading job without
title and id with a bar of width `n`. -/
def overshootStrip (n : Int) : String :=
  status.renderTop.rowHtml "-" (status.renderTop.cancelButton "") (status.renderTop.progressBar n)

/-- A job record with progress 57.5. -/
def halfwayJob : JVal := .obj [("id", .str "42"), ("title", .str "Book A"), ("progress", .num (115 / 2))]

/-- A snapshot that lists the key `queued` before the key `downloading`. -/
def queuedFirst : JVal :=
  .obj [("queued", .obj [("1", .obj [])]), ("downloading", .obj [("2", .obj [])])]

/-- The snapshot `queuedFirst` with its two keys in the other order. -/
def downloadingFirst : JVal :=
  .obj [("downloading", .obj [("2", .obj [])]), ("queued", .obj [("1", .obj [])])]

/-- A payload whose only key is no category. -/
def pausedOnly : JVal := .obj [("paused", .obj [("1", .obj [("title", .str "X")])])]

/-- The snapshot of the scenario of the specification: one downloading job. -/
def scenario : JVal :=
  .obj [("queued", .obj []), ("downloading", .obj [("42", halfwayJob)]),
        ("completed", .obj []), ("error", .obj [])]

/-- A network on which no request completes. -/
def offline : Network := fun _ => none

/-- A network that answers every request with status 200 and a body that is
not JSON. -/
def notJson : Network := fun _ => some ⟨200, "OK", none⟩

/-- A network that answers every request with status 200 and the body `{}`. -/
def online : Network := fun _ => some ⟨200, "OK", some (.obj [])⟩

/-- A network that answers every request with status 500. -/
def failing : Network := fun _ => some ⟨500, "Internal Server Error", some (.obj [])⟩

/-- A book record with id 1. -/
def aBook : JVal := .obj [("id", .str "1")]

/-- The request of `queue.cancel(id)`. -/
def cancelRequest (id : String) : Request :=
  ⟨"DELETE", API.cancelDownload ++ "/" ++ encodeURIComponent id ++ "/cancel"⟩

/-- The request of the clear-completed handler. -/
def clearRequest : Request := ⟨"DELETE", API.clearCompleted⟩

/-- The request of `bookDetails.download(book)` for a book whose id has the
string form `idText`. -/
def enqueueRequest (idText : String) : Request :=
  ⟨"GET", API.download ++ "?id=" ++ encodeURIComponent idText⟩

/-- Whether `utils.j` resolves on a request: the network answers with an ok
status and a JSON body. -/
def resolves (net : Network) (req : Request) : Bool :=
  match net req with
  | some res => res.ok && res.body.isSome
  | none => false

/-- A value without a string form: the object `{"toString": 1}`. -/
def unprintable : JVal := .obj [("toString", .num 1)]

/-- A snapshot whose one queued job has an id without a string form. -/
def trapQueued : JVal := .obj [("queued", .obj [("1", .obj [("id", unprintable)])])]

/-- A snapshot whose one downloading job has an id without a string form. -/
def trapDownloading : JVal :=
  .obj [("downloading", .obj [("1", .obj [("id", unprintable)])])]

/-- A snapshot with a queued job whose id has no string form and a
downloading job with the id `2`. -/
def trapMixed : JVal :=
  .obj [("queued", .obj [("1", .obj [("id", unprintable)])]),
        ("downloading", .obj [("2", .obj [("id", .str "2")])])]

/-- A completed job whose title spells a cancel button. -/
def buttonTitle : JVal :=
  .obj [("id", .str "7"), ("title", .str "<button data-cancel=\"42\">Cancel</button>")]

/-- A snapshot whose one job is completed and has a title that spells a
cancel button. -/
def injected : JVal := .obj [("completed", .obj [("7", buttonTitle)])]

/-- A queued job whose id holds a double quote. -/
def quotedId : JVal := .obj [("id", .str "a\"b")]

/-- A network that answers every request with status 200 and the body
`data`. -/
def serving (data : JVal) : Network := fun _ => some ⟨200, "OK", some data⟩

/-! ## Lemmas -/

open JVal

theorem JVal.get_ok {b : JVal} (k : String) (hb : b.isNullish = false) :
    b.get k = .ok (b.prop k) := by
  simp [JVal.get, hb]

theorem tryMap_eq_map {α β : Type} (f : α → Except JsError β) (g : α → β) (xs : List α)
    (h : ∀ x ∈ xs, f x = .ok (g x)) : tryMap f xs = .ok (xs.map g) := by
  induction xs with
  | nil => rfl
  | cons x xs ih =>
    have hx := h x (List.mem_cons_self _ _)
    have hxs := ih (fun y hy => h y (List.mem_cons_of_mem _ hy))
    simp [tryMap, hx, hxs]

theorem utils.e_eq_textOf {v : JVal} (h : v.printable = true) :
    utils.e v = .ok (textOf v) := by
  unfold textOf utils.e
  unfold JVal.printable at h
  cases hn : v.isNullish
  · cases ht : v.toStr with
    | error e => simp [ht] at h
    | ok text => simp
  · simp

theorem JVal.printable_or_dash {v : JVal} (h : v.printable = true) :
    (v.or (.str "-")).printable = true := by
  unfold JVal.or
  cases v.truthy
  · rfl
  · simpa using h

theorem isRecord_iff {b : JVal} :
    isRecord b = true ↔
      b.isNullish = false ∧ (b.prop "id").printable = true ∧
        (b.prop "title").printable = true := by
  simp [isRecord, and_assoc]

theorem status.render.row_eq_fullRow (name : String) {b : JVal} (hrec : isRecord b = true) :
    status.render.row name b = .ok (fullRow name (listing b)) := by
  obtain ⟨hb, hid, htitle⟩ := isRecord_iff.1 hrec
  unfold status.render.row status.render.actions status.render.progress
  simp only [JVal.get_ok _ hb, utils.e_eq_textOf hid,
    utils.e_eq_textOf (JVal.printable_or_dash htitle)]
  unfold fullRow listing
  by_cases h1 : name = "downloading"
  · subst h1
    cases hp : b.prop "progress" <;> simp
  · by_cases h2 : name = "queued"
    · subst h2; simp
    · simp [h1, h2]

theorem status.renderTop.row_eq_stripRow {b : JVal} (hrec : isRecord b = true) :
    status.renderTop.row b = .ok (stripRow (listing b)) := by
  obtain ⟨hb, hid, htitle⟩ := isRecord_iff.1 hrec
  unfold status.renderTop.row status.renderTop.prog
  simp only [JVal.get_ok _ hb, utils.e_eq_textOf hid,
    utils.e_eq_textOf (JVal.printable_or_dash htitle)]
  unfold stripRow listing
  cases hp : b.prop "progress" <;> simp

theorem JVal.entries_of_falsy {v : JVal} (h : v.truthy = false) : v.entries = [] := by
  cases v with
  | str s =>
    simp [JVal.truthy] at h
    subst h
    rfl
  | arr xs => simp [JVal.truthy] at h
  | obj ps => simp [JVal.truthy] at h
  | _ => rfl

theorem status.render.skip_eq (items : JVal) :
    (!items.truthy || items.keys.length == 0) = !hasJobs items := by
  unfold hasJobs JVal.keys
  cases ht : items.truthy
  · simp [JVal.entries_of_falsy ht]
  · cases items.entries <;> simp

theorem status.render.sections_eq (entries : List (String × JVal))
    (h : jobsAreRecords entries) :
    status.render.sections entries
      = .ok ((entries.filter fun e => hasJobs e.2).map sectionOf) := by
  induction entries with
  | nil => rfl
  | cons e rest ih =>
    obtain ⟨name, items⟩ := e
    have hrest : jobsAreRecords rest := fun e he => h e (List.mem_cons_of_mem _ he)
    have hrows : tryMap (status.render.row name) items.values
        = .ok (items.values.map fun b => fullRow name (listing b)) :=
      tryMap_eq_map _ _ _ (fun b hb =>
        status.render.row_eq_fullRow name (h (name, items) (List.mem_cons_self _ _) b hb))
    rw [status.render.sections, status.render.skip_eq, ih hrest, hrows]
    cases hj : hasJobs items <;> simp [List.filter, hj, sectionOf]

theorem JVal.or_entries (data : JVal) : (data.or (.obj [])).entries = data.entries := by
  unfold JVal.or
  cases ht : data.truthy
  · rw [if_neg (by simp), JVal.entries_of_falsy ht]
    rfl
  · simp

theorem status.render.sectionHtml_data (name rows : String) :
    ∃ t, (status.render.sectionHtml name rows).data = '\n' :: t := by
  unfold status.render.sectionHtml
  simp only [String.data_append]
  exact ⟨_, rfl⟩

theorem join_sections (secs : List String)
    (h : ∀ s ∈ secs, ∃ t, s.data = '\n' :: t) :
    (if String.join secs ≠ "" then String.join secs else status.render.noItemsHtml)
      = panelOf secs := by
  unfold panelOf
  cases secs with
  | nil => simp [String.join]
  | cons s rest =>
    obtain ⟨t, ht⟩ := h s (List.mem_cons_self _ _)
    have : String.join (s :: rest) ≠ "" := by
      intro hh
      have := congrArg String.data hh
      simp [ht] at this
    simp [this]

theorem status.render_eq (data : JVal) (w : World) (h : jobsAreRecords data.entries) :
    status.render data w = .ok { w with
      statusList := panelOf ((data.entries.filter fun e => hasJobs e.2).map sectionOf) } := by
  unfold status.render
  rw [JVal.or_entries, status.render.sections_eq _ h]
  simp only
  rw [join_sections]
  intro s hs
  obtain ⟨e, -, rfl⟩ := List.mem_map.1 hs
  exact status.render.sectionHtml_data _ _

theorem status.render_frame {data : JVal} {w w1 : World} (h : status.render data w = .ok w1) :
    w1 = { w with statusList := w1.statusList } := by
  unfold status.render at h
  split at h
  · cases h
  · cases h; rfl

theorem status.renderTop_frame {data : JVal} {w w1 : World} (h : status.renderTop data w = .ok w1) :
    w1 = { w with activeTopList := w1.activeTopList, activeTopSec := w1.activeTopSec } := by
  unfold status.renderTop at h
  split at h
  · cases h; rfl
  · split at h
    · cases h; rfl
    · split at h
      · cases h
      · cases h; rfl

theorem utils.j_world (net : Network) (url : String) (w : World) :
    (utils.j net url w).2 = { w with requests := w.requests ++ [⟨"GET", url⟩] } := by
  unfold utils.j fetch
  cases net ⟨"GET", url⟩ with
  | none => rfl
  | some res =>
    simp only
    split
    · rfl
    · cases res.body <;> rfl

theorem status.updateActive_frame (net : Network) (w : World) :
    ∃ c l, status.updateActive net w = { w with
      requests := w.requests ++ [⟨"GET", API.activeDownloads⟩],
      activeDownloadsCount := c, console := l } := by
  unfold status.updateActive
  have hw := utils.j_world net API.activeDownloads w
  rcases hj : utils.j net API.activeDownloads w with ⟨r, w1⟩
  rw [hj] at hw
  simp only at hw
  subst hw
  cases r with
  | error e => exact ⟨_, _, rfl⟩
  | ok d =>
    simp only
    cases d.get "active_downloads" with
    | error e => exact ⟨_, _, rfl⟩
    | ok a => exact ⟨_, _, rfl⟩

theorem status.fetch_frame (net : Network) (w : World) :
    ∃ extra, (status.fetch net w).requests = w.requests ++ statusRequest :: extra ∧
      statusRequest ∉ extra ∧
      (status.fetch net w).modalOverlay = w.modalOverlay ∧
      (status.fetch net w).detailsContainer = w.detailsContainer := by
  unfold status.fetch status.fetch.body
  dsimp only
  have hw := utils.j_world net API.status { w with statusLoading := utils.show w.statusLoading }
  rcases hj : utils.j net API.status { w with statusLoading := utils.show w.statusLoading }
    with ⟨r, w1⟩
  rw [hj] at hw
  simp only at hw
  subst hw
  cases r with
  | error e => exact ⟨[], by simp [statusRequest], by simp, rfl, rfl⟩
  | ok data =>
    simp only
    cases hr : status.render data _ with
    | error e => exact ⟨[], by simp [statusRequest], by simp, rfl, rfl⟩
    | ok w2 =>
      have h2 := status.render_frame hr
      simp only
      cases ht : status.renderTop data w2 with
      | error e =>
        refine ⟨[], ?_, by simp, ?_, ?_⟩
        · simp only
          rw [h2]
          simp [statusRequest]
        · simp only
          rw [h2]
        · simp only
          rw [h2]
      | ok w3 =>
        have h3 := status.renderTop_frame ht
        obtain ⟨c, l, hu⟩ := status.updateActive_frame net w3
        simp only
        rw [hu, h3, h2]
        refine ⟨[⟨"GET", API.activeDownloads⟩], by simp [statusRequest], ?_, rfl, rfl⟩
        simp [statusRequest]
        decide

theorem status.fetch_count (net : Network) (w : World) :
    statusFetches (status.fetch net w) = statusFetches w + 1 := by
  obtain ⟨extra, h, hn, -, -⟩ := status.fetch_frame net w
  unfold statusFetches
  rw [h, List.count_append, List.count_cons_self, List.count_eq_zero_of_not_mem hn]

/-! ## Progress width (C1) -/

theorem Math.round_150 : Math.round 150 = 150 := by
  norm_num [Math.round]

theorem Math.round_clamp_150 : Math.round (clamp 150 0 100) = 100 := by
  norm_num [Math.round, clamp]

theorem Math.round_of_mem_range {p : ℚ} (h0 : 0 ≤ p) (h1 : p ≤ 100) :
    Math.round p = Math.round (clamp p 0 100) ∧ 0 ≤ Math.round p ∧ Math.round p ≤ 100 := by
  have hc : clamp p 0 100 = p := by
    unfold clamp
    rw [min_eq_left h1, max_eq_right h0]
  refine ⟨by rw [hc], ?_, ?_⟩
  · unfold Math.round
    exact Int.floor_nonneg.2 (by linarith)
  · unfold Math.round
    have : ⌊p + 1 / 2⌋ < 101 := by
      rw [Int.floor_lt]
      push_cast
      linarith
    omega

/-- C1, counterexample: for a downloading job with progress 150 both views
emit a bar of width 150%, not the clamped width `round(clamp(150, 0, 100))`,
which is 100. -/
theorem progress_width_not_clamped :
    status.render overshoot blankWorld
        = .ok { blankWorld with statusList := overshootPanel 150 } ∧
    status.renderTop overshoot blankWorld
        = .ok { blankWorld with
            activeTopList := some (overshootStrip 150), activeTopSec := some false } ∧
    Math.round (clamp 150 0 100) = 100 ∧
    overshootPanel 150 ≠ overshootPanel (Math.round (clamp 150 0 100)) ∧
    overshootStrip 150 ≠ overshootStrip (Math.round (clamp 150 0 100)) := by
  refine ⟨?_, ?_, Math.round_clamp_150, ?_, ?_⟩
  · have h : status.render overshoot blankWorld
        = .ok { blankWorld with statusList := overshootPanel (Math.round 150) } := rfl
    rw [h, Math.round_150]
  · have h : status.renderTop overshoot blankWorld
        = .ok { blankWorld with
            activeTopList := some (overshootStrip (Math.round 150)),
            activeTopSec := some false } := rfl
    rw [h, Math.round_150]
  · rw [Math.round_clamp_150]
    decide
  · rw [Math.round_clamp_150]
    decide

/-- C1, amended: for a job whose progress is a number `p`, the bar that
`status.render` emits in the bucket `downloading` and the bar that
`status.renderTop` emits both have the width `Math.round(p)`, without a
clamp; for `0 ≤ p ≤ 100` that width is `round(clamp(p, 0, 100))` and lies
between 0 and 100. -/
theorem progress_width_is_rounded (b : JVal) (p : ℚ)
    (hp : b.get "progress" = .ok (.num p)) :
    status.render.progress "downloading" b
        = .ok (status.render.progressBar "blue" (Math.round p)) ∧
    status.renderTop.prog b = .ok (status.renderTop.progressBar (Math.round p)) ∧
    (0 ≤ p → p ≤ 100 →
      Math.round p = Math.round (clamp p 0 100) ∧ 0 ≤ Math.round p ∧ Math.round p ≤ 100) := by
  refine ⟨?_, ?_, fun h0 h1 => Math.round_of_mem_range h0 h1⟩
  · simp only [status.render.progress, if_true, hp]
    rfl
  · simp only [status.renderTop.prog, hp]

/-- C1, witness: the job of the scenario, with progress 57.5, gets a bar of
width 58 in both views. -/
theorem progress_width_is_rounded_witness :
    halfwayJob.get "progress" = .ok (.num (115 / 2)) ∧
    status.render.progress "downloading" halfwayJob
        = .ok (status.render.progressBar "blue" (Math.round (115 / 2))) ∧
    status.renderTop.prog halfwayJob
        = .ok (status.renderTop.progressBar (Math.round (115 / 2))) ∧
    (Math.round (115 / 2) = Math.round (clamp (115 / 2) 0 100) ∧
      0 ≤ Math.round (115 / 2) ∧ Math.round (115 / 2) ≤ 100) ∧
    Math.round (115 / 2) = 58 :=
  ⟨rfl, (progress_width_is_rounded halfwayJob (115 / 2) rfl).1,
    (progress_width_is_rounded halfwayJob (115 / 2) rfl).2.1,
    (progress_width_is_rounded halfwayJob (115 / 2) rfl).2.2 (by norm_num) (by norm_num),
    by norm_num [Math.round]⟩

/-! ## Order of the sections (C2) -/

/-- C2, counterexample: two snapshots with the same two buckets under the
same keys, listed in a different order, give different full panels. -/
theorem key_order_changes_panel :
    downloadingFirst.entries = queuedFirst.entries.reverse ∧
    (status.render queuedFirst blankWorld).toOption.map (fun w => w.statusList)
      ≠ (status.render downloadingFirst blankWorld).toOption.map (fun w => w.statusList) := by
  refine ⟨rfl, ?_⟩
  decide

/-- C2, amended: on a snapshot whose jobs are records, `status.render`
emits the sections in the order in which the keys occur in the snapshot (the
order of `Object.entries`): the full panel is the sequence of the sections of
the entries with at least one job, in the order of the entries. -/
theorem render_follows_key_order (data : JVal) (w : World)
    (h : jobsAreRecords data.entries) :
    status.render data w = .ok { w with
      statusList := panelOf ((data.entries.filter fun e => hasJobs e.2).map sectionOf) } :=
  status.render_eq data w h

/-- C2, witness: the two snapshots of the counterexample, each rendered in
its own key order. -/
theorem render_follows_key_order_witness :
    jobsAreRecords downloadingFirst.entries ∧
    status.render downloadingFirst blankWorld = .ok { blankWorld with
      statusList := panelOf
        [sectionOf ("downloading", .obj [("2", .obj [])]),
         sectionOf ("queued", .obj [("1", .obj [])])] } :=
  ⟨by decide, render_follows_key_order downloadingFirst blankWorld (by decide)⟩

/-! ## Escaping (C4) -/

/-- C4, the code at the failing input: `utils.e` returns a text with markup
unchanged, and the row of the active strip carries it as markup. -/
theorem e_returns_markup_unescaped :
    utils.e (.str "<img src=x onerror=alert(1)>") = .ok "<img src=x onerror=alert(1)>" ∧
    status.renderTop.row (.obj [("title", .str "<img src=x onerror=alert(1)>")])
      = .ok (status.renderTop.rowHtml "<img src=x onerror=alert(1)>"
          (status.renderTop.cancelButton "") "") := by
  exact ⟨rfl, rfl⟩

/-! ## Keys that are no category (C5) -/

theorem fullRow_of_not_category {name : String} (hname : name ∉ categories) (l : Listing) :
    fullRow name l
      = status.render.rowHtml (status.styleOf name).color (status.styleOf name).icon l.title
          (capitalize name) "" "" := by
  have h1 : name ≠ "queued" := fun h => hname (by simp [h, categories])
  have h2 : name ≠ "downloading" := fun h => hname (by simp [h, categories])
  simp [fullRow, h1, h2]

theorem jobsAreRecords_append {pre post : List (String × JVal)} :
    jobsAreRecords (pre ++ post) ↔ jobsAreRecords pre ∧ jobsAreRecords post := by
  unfold jobsAreRecords
  constructor
  · intro h
    exact ⟨fun e he => h e (List.mem_append_left _ he),
      fun e he => h e (List.mem_append_right _ he)⟩
  · rintro ⟨h1, h2⟩ e he
    rcases List.mem_append.1 he with he | he
    · exact h1 e he
    · exact h2 e he

theorem jobsAreRecords_cons {e : String × JVal} {post : List (String × JVal)} :
    jobsAreRecords (e :: post) ↔ (∀ b ∈ e.2.values, isRecord b = true) ∧ jobsAreRecords post := by
  unfold jobsAreRecords
  simp

theorem panelOf_of_ne_nil {secs : List String} (h : secs ≠ []) :
    panelOf secs = String.join secs := by
  simp [panelOf, h]

/-- C5, counterexample: a payload whose only key is `paused`, with one job,
is rendered as a section headed `Paused`; the payload without that key is
rendered as the placeholder. -/
theorem unknown_key_gets_a_section :
    status.render pausedOnly blankWorld = .ok { blankWorld with
      statusList :=
        "\n" ++
        "          <div>\n" ++
        "            <h3 class=\"text-lg font-semibold mb-3\">Paused</h3>\n" ++
        "            <ul class=\"space-y-3\">" ++
        "\n" ++
        "            <li class=\"p-4 rounded-lg flex flex-col gap-3\" style=\"background-color: var(" ++
        "--card-background);\">\n" ++
        "              <div class=\"flex items-center gap-3\">\n" ++
        "                <svg xmlns=\"http://www.w3.org/2000/svg\" class=\"h-6 w-6 text-gray-500 shr" ++
        "ink-0\" fill=\"none\" viewBox=\"0 0 24 24\" stroke=\"currentColor\"><path stroke-linecap=\"round" ++
        "\" stroke-linejoin=\"round\" stroke-width=\"2\" d=\"\" /></svg>\n" ++
        "                <div class=\"flex-1\">\n" ++
        "                  <p class=\"font-semibold\">X</p>\n" ++
        "                  <p class=\"text-sm opacity-70\">Paused</p>\n" ++
        "                </div>\n" ++
        "                <div class=\"shrink-0\"></div>\n" ++
        "              </div>\n" ++
        "              \n" ++
        "            </li></ul>\n" ++
        "          </div>" } ∧
    status.render (.obj []) blankWorld
      = .ok { blankWorld with statusList := status.render.noItemsHtml } ∧
    (status.render pausedOnly blankWorld).toOption.map (fun w => w.statusList)
      ≠ (status.render (.obj []) blankWorld).toOption.map (fun w => w.statusList) := by
  refine ⟨rfl, rfl, ?_⟩
  decide

/-- C5, amended: on a payload whose jobs are records, a top-level key that
is none of the four categories is ignored when its bucket has no job, and
then the full panel equals the one of the payload without the key; when its
bucket has jobs, `status.render` emits a section for it, between the sections
of the keys before and after it, headed by the capitalised key, with one row
per job whose actions cell and progress cell are empty. -/
theorem unknown_key_ignored_iff_no_jobs (pre post : List (String × JVal)) (name : String)
    (items : JVal) (w : World) (hname : name ∉ categories)
    (hrec : jobsAreRecords (pre ++ (name, items) :: post)) :
    (hasJobs items = false →
      status.render (.obj (pre ++ (name, items) :: post)) w
        = status.render (.obj (pre ++ post)) w) ∧
    (hasJobs items = true →
      status.render (.obj (pre ++ (name, items) :: post)) w = .ok { w with
        statusList := String.join
          ((pre.filter fun e => hasJobs e.2).map sectionOf ++
            [status.render.sectionHtml name (String.join (items.values.map fun b =>
              status.render.rowHtml (status.styleOf name).color (status.styleOf name).icon
                (listing b).title (capitalize name) "" ""))] ++
            (post.filter fun e => hasJobs e.2).map sectionOf) }) := by
  have hrec2 : jobsAreRecords (pre ++ post) := by
    rw [jobsAreRecords_append] at hrec ⊢
    exact ⟨hrec.1, (jobsAreRecords_cons.1 hrec.2).2⟩
  constructor
  · intro hj
    rw [status.render_eq _ _ (by simpa [JVal.entries] using hrec),
      status.render_eq _ _ (by simpa [JVal.entries] using hrec2)]
    simp [JVal.entries, List.filter_append, List.filter_cons, hj]
  · intro hj
    rw [status.render_eq _ _ (by simpa [JVal.entries] using hrec)]
    have hsec : sectionOf (name, items)
        = status.render.sectionHtml name (String.join (items.values.map fun b =>
            status.render.rowHtml (status.styleOf name).color (status.styleOf name).icon
              (listing b).title (capitalize name) "" "")) := by
      simp only [sectionOf, fullRow_of_not_category hname]
    have hfil : ((JVal.obj (pre ++ (name, items) :: post)).entries.filter
          fun e => hasJobs e.2).map sectionOf
        = (pre.filter fun e => hasJobs e.2).map sectionOf ++ [sectionOf (name, items)] ++
            (post.filter fun e => hasJobs e.2).map sectionOf := by
      simp [JVal.entries, List.filter_append, List.filter_cons, hj]
    rw [hfil, panelOf_of_ne_nil (by simp), hsec]

/-- C5, witness: the payload of the counterexample, whose key `paused` has
one job. -/
theorem unknown_key_ignored_iff_no_jobs_witness :
    "paused" ∉ categories ∧
    jobsAreRecords ([] ++ ("paused", JVal.obj [("1", .obj [("title", .str "X")])]) :: []) ∧
    status.render (.obj ([] ++ ("paused", JVal.obj [("1", .obj [("title", .str "X")])]) :: []))
        blankWorld = .ok { blankWorld with
      statusList := String.join
        ((([] : List (String × JVal)).filter fun e => hasJobs e.2).map sectionOf ++
          [status.render.sectionHtml "paused"
            (String.join ((JVal.obj [("1", .obj [("title", .str "X")])]).values.map fun b =>
              status.render.rowHtml (status.styleOf "paused").color (status.styleOf "paused").icon
                (listing b).title (capitalize "paused") "" ""))] ++
          (([] : List (String × JVal)).filter fun e => hasJobs e.2).map sectionOf) } :=
  ⟨by decide, by decide,
    (unknown_key_ignored_iff_no_jobs [] [] "paused" (.obj [("1", .obj [("title", .str "X")])])
      blankWorld (by decide) (by decide)).2 rfl⟩

/-! ## Sections and buckets (C6) -/

theorem panelOf_ne_placeholder {secs : List String} (hne : secs ≠ [])
    (h : ∀ s ∈ secs, ∃ t, s.data = '\n' :: t) :
    panelOf secs ≠ status.render.noItemsHtml := by
  rw [panelOf_of_ne_nil hne]
  cases secs with
  | nil => exact absurd rfl hne
  | cons s rest =>
    obtain ⟨t, ht⟩ := h s (List.mem_cons_self _ _)
    intro hh
    have := congrArg String.data hh
    simp [ht, status.render.noItemsHtml] at this

/-- C6, counterexample: the queued bucket is present and has a job, whose id
is the object `{"toString": 1}`; `status.render` throws on that id and emits
no section, and a refresh that receives the snapshot shows the error
message. -/
theorem bucket_with_job_without_section :
    hasJobs (trapQueued.prop "queued") = true ∧
    status.render trapQueued blankWorld = .error .typeError ∧
    (status.fetch (serving trapQueued) blankWorld).statusList =
      "<div class=\"text-sm opacity-80\">Error loading status.</div>" := by
  refine ⟨rfl, rfl, ?_⟩
  decide

/-- C6, amended: on a snapshot whose jobs are records (not null, with an id
and a title that have a string form), the markup that `status.render` emits
is one section for every bucket that is present and has at least one job, in
the order of the keys, and nothing else; each section is the section
template with the capitalised key and one row per job; and when no bucket
has a job the markup is the placeholder `No items in queue.`, which no
sequence of sections equals. -/
theorem section_iff_bucket_has_jobs (data : JVal) (w : World)
    (h : jobsAreRecords data.entries) :
    status.render data w = .ok { w with
      statusList :=
        if ∀ e ∈ data.entries, hasJobs e.2 = false then
          "<div class=\"text-center p-6 rounded-lg\" style=\"background-color: var(--card-background);" ++
          "\">No items in queue.</div>"
        else String.join ((data.entries.filter fun e => hasJobs e.2).map sectionOf) } ∧
    (∀ e : String × JVal, sectionOf e =
        "\n" ++
        "          <div>\n" ++
        "            <h3 class=\"text-lg font-semibold mb-3\">" ++
        capitalize e.1 ++
        "</h3>\n" ++
        "            <ul class=\"space-y-3\">" ++
        String.join (e.2.values.map fun b => fullRow e.1 (listing b)) ++
        "</ul>\n" ++
        "          </div>") ∧
    ((∃ e ∈ data.entries, hasJobs e.2 = true) →
      String.join ((data.entries.filter fun e => hasJobs e.2).map sectionOf) ≠
        "<div class=\"text-center p-6 rounded-lg\" style=\"background-color: var(--card-background);" ++
        "\">No items in queue.</div>") := by
  have hsec : ∀ s ∈ (data.entries.filter fun e => hasJobs e.2).map sectionOf,
      ∃ t, s.data = '\n' :: t := by
    intro s hs
    obtain ⟨e, -, rfl⟩ := List.mem_map.1 hs
    exact status.render.sectionHtml_data _ _
  refine ⟨?_, ?_, ?_⟩
  · rw [status.render_eq data w h]
    by_cases hall : ∀ e ∈ data.entries, hasJobs e.2 = false
    · have hnil : (data.entries.filter fun e => hasJobs e.2) = [] := by
        rw [List.filter_eq_nil_iff]
        intro e he
        simp [hall e he]
      rw [if_pos hall, hnil]
      rfl
    · have hne : (data.entries.filter fun e => hasJobs e.2).map sectionOf ≠ [] := by
        intro hnil
        apply hall
        intro e he
        cases hj : hasJobs e.2
        · rfl
        · have hmem : sectionOf e ∈ (data.entries.filter fun e => hasJobs e.2).map sectionOf :=
            List.mem_map.2 ⟨e, List.mem_filter.2 ⟨he, hj⟩, rfl⟩
          rw [hnil] at hmem
          exact absurd hmem (List.not_mem_nil _)
      rw [if_neg hall, panelOf_of_ne_nil hne]
  · intro e
    unfold sectionOf status.render.sectionHtml
    apply String.ext
    simp only [String.data_append, List.append_assoc]
  · rintro ⟨e, he, hj⟩
    have hne : (data.entries.filter fun e => hasJobs e.2).map sectionOf ≠ [] := by
      intro hnil
      have hmem : sectionOf e ∈ (data.entries.filter fun e => hasJobs e.2).map sectionOf :=
        List.mem_map.2 ⟨e, List.mem_filter.2 ⟨he, hj⟩, rfl⟩
      rw [hnil] at hmem
      exact absurd hmem (List.not_mem_nil _)
    have := panelOf_ne_placeholder hne hsec
    rw [panelOf_of_ne_nil hne] at this
    exact this

/-- C6, witness: the snapshot of the scenario, whose only bucket with a job
is `downloading`. -/
theorem section_iff_bucket_has_jobs_witness :
    jobsAreRecords scenario.entries ∧
    status.render scenario blankWorld = .ok { blankWorld with
      statusList :=
        if ∀ e ∈ scenario.entries, hasJobs e.2 = false then
          "<div class=\"text-center p-6 rounded-lg\" style=\"background-color: var(--card-background);" ++
          "\">No items in queue.</div>"
        else String.join ((scenario.entries.filter fun e => hasJobs e.2).map sectionOf) } :=
  ⟨by decide, (section_iff_bucket_has_jobs scenario blankWorld (by decide)).1⟩

/-! ## Visibility of the active strip (C7) -/

theorem status.renderTop.downloading_eq (data : JVal) :
    status.renderTop.downloading data = (data.prop "downloading").values := by
  unfold status.renderTop.downloading
  cases hd : data.truthy
  · have : data.prop "downloading" = .undefined := by
      cases data <;> simp_all [JVal.truthy, JVal.prop]
    simp [this, JVal.values, JVal.entries]
  · cases hp : (data.prop "downloading").truthy
    · simp [JVal.values, JVal.entries_of_falsy hp]
    · simp

theorem values_eq_nil_iff (items : JVal) : items.values = [] ↔ hasJobs items = false := by
  unfold JVal.values hasJobs
  cases items.entries <;> simp

/-- C7, counterexample: the downloading bucket has a job, whose id is the
object `{"toString": 1}`; `status.renderTop` throws on that id before it
shows the strip, and after a refresh that receives the snapshot the strip is
still hidden. -/
theorem strip_hidden_with_downloading_job :
    hasJobs (trapDownloading.prop "downloading") = true ∧
    status.renderTop trapDownloading blankWorld = .error .typeError ∧
    (status.fetch (serving trapDownloading) blankWorld).activeTopSec = some true := by
  refine ⟨rfl, rfl, ?_⟩
  decide

/-- C7, amended: with the elements of the strip present and the downloading
jobs being records (not null, with an id and a title that have a string
form), after `status.renderTop` the strip is visible (its class `hidden` is
off) if and only if the downloading bucket is present and has a job; when
the bucket is empty or absent the strip is hidden and its list is empty. -/
theorem strip_visible_iff_downloading (data : JVal) (w : World) (sec : Bool) (list : String)
    (hs : w.activeTopSec = some sec) (hl : w.activeTopList = some list)
    (hrec : ∀ b ∈ (data.prop "downloading").values, isRecord b = true) :
    ∃ w1, status.renderTop data w = .ok w1 ∧
      (w1.activeTopSec = some false ↔ hasJobs (data.prop "downloading") = true) ∧
      (hasJobs (data.prop "downloading") = false →
        w1.activeTopSec = some true ∧ w1.activeTopList = some "") := by
  unfold status.renderTop
  rw [status.renderTop.downloading_eq,
    tryMap_eq_map status.renderTop.row (fun b => stripRow (listing b)) _
      (fun b hb => status.renderTop.row_eq_stripRow (hrec b hb))]
  simp only [hs, hl, Option.isNone_some, Bool.or_self, Bool.false_eq_true, if_false]
  cases hj : hasJobs (data.prop "downloading")
  · have hnil := (values_eq_nil_iff _).2 hj
    simp [hnil, utils.hide]
  · have hne : (data.prop "downloading").values ≠ [] := by
      intro h0
      rw [values_eq_nil_iff, hj] at h0
      exact absurd h0 (by decide)
    have hlen : ((data.prop "downloading").values.length == 0) = false := by
      cases hv : (data.prop "downloading").values with
      | nil => exact absurd hv hne
      | cons x xs => rfl
    simp [hlen, utils.show]

/-- C7, witness: on the snapshot of the scenario the strip of the blank
page, hidden before, is visible after `status.renderTop`. -/
theorem strip_visible_iff_downloading_witness :
    blankWorld.activeTopSec = some true ∧ blankWorld.activeTopList = some "" ∧
    (∀ b ∈ (scenario.prop "downloading").values, isRecord b = true) ∧
    ∃ w1, status.renderTop scenario blankWorld = .ok w1 ∧
      (w1.activeTopSec = some false ↔ hasJobs (scenario.prop "downloading") = true) ∧
      (hasJobs (scenario.prop "downloading") = false →
        w1.activeTopSec = some true ∧ w1.activeTopList = some "") :=
  ⟨rfl, rfl, by decide,
    strip_visible_iff_downloading scenario blankWorld true "" rfl rfl (by decide)⟩

/-! ## Agreement of the two views (C8) -/

theorem lookup_of_mem_nodup {props : List (String × JVal)} {e : String × JVal}
    (hkeys : (props.map Prod.fst).Nodup) (he : e ∈ props) :
    props.lookup e.1 = some e.2 := by
  induction props with
  | nil => exact absurd he (List.not_mem_nil _)
  | cons p rest ih =>
    obtain ⟨k, v⟩ := p
    rw [List.map_cons, List.nodup_cons] at hkeys
    rcases List.mem_cons.1 he with rfl | hmem
    · simp [List.lookup]
    · have hne : e.1 ≠ k := by
        intro hk
        exact hkeys.1 (List.mem_map.2 ⟨e, hmem, hk⟩)
      have hbeq : (e.1 == k) = false := by simpa using hne
      simp only [List.lookup, hbeq]
      exact ih hkeys.2 hmem

theorem fullRow_downloading (l : Listing) :
    fullRow "downloading" l
      = status.render.rowHtml "blue" "M4 16v1h16v-1l-2-6-4 4-4-4-2 6zM4 4h16v1H4z" l.title
          "Downloading" (status.render.cancelButton l.cancelId)
          (match l.width with
            | some n => status.render.progressBar "blue" n
            | none => "") := by
  cases l with
  | mk title cancelId width => cases width <;> rfl

theorem stripRow_markup (l : Listing) :
    stripRow l =
        "\n" ++
        "          <div class=\"p-3 rounded-lg\" style=\"background-color: var(--card-background);\">" ++
        "\n" ++
        "            <div class=\"flex items-center justify-between gap-3 mb-2\">\n" ++
        "              <p class=\"text-sm font-semibold truncate\">" ++
        l.title ++
        "</p>\n" ++
        "              <div class=\"shrink-0\">" ++
        "<button class=\"px-2 py-1 rounded-md border text-xs font-semibold\" data-cancel=\"" ++
        l.cancelId ++
        "\" style=\"border-color: var(--border-muted);\">Cancel</button></div>\n" ++
        "            </div>\n" ++
        "            <div class=\"h-1.5 rounded overflow-hidden\" style=\"background-color: var(--bg" ++
        ");\">" ++
        (match l.width with
          | some n =>
            "<div class=\"h-1.5 bg-blue-500\" style=\"width:" ++
              JVal.numToString n ++
              "%\"></div>"
          | none => "") ++
        "</div>\n" ++
        "          </div>" := by
  unfold stripRow status.renderTop.rowHtml status.renderTop.cancelButton
  cases l.width with
  | none =>
    apply String.ext
    simp only [String.data_append, List.append_assoc]
    rfl
  | some n =>
    unfold status.renderTop.progressBar
    apply String.ext
    simp only [String.data_append, List.append_assoc]
    rfl

theorem fullRow_downloading_markup (l : Listing) :
    fullRow "downloading" l =
        "\n" ++
        "            <li class=\"p-4 rounded-lg flex flex-col gap-3\" style=\"background-color: var(" ++
        "--card-background);\">\n" ++
        "              <div class=\"flex items-center gap-3\">\n" ++
        "                <svg xmlns=\"http://www.w3.org/2000/svg\" class=\"h-6 w-6 text-blue-500 shr" ++
        "ink-0\" fill=\"none\" viewBox=\"0 0 24 24\" stroke=\"currentColor\"><path stroke-linecap=\"round" ++
        "\" stroke-linejoin=\"round\" stroke-width=\"2\" d=\"M4 16v1h16v-1l-2-6-4 4-4-4-2 6zM4 4h16v1H4" ++
        "z\" /></svg>\n" ++
        "                <div class=\"flex-1\">\n" ++
        "                  <p class=\"font-semibold\">" ++
        l.title ++
        "</p>\n" ++
        "                  <p class=\"text-sm opacity-70\">Downloading</p>\n" ++
        "                </div>\n" ++
        "                <div class=\"shrink-0\">" ++
        "<button class=\"px-3 py-1 rounded-md border text-xs font-semibold\" data-cancel=\"" ++
        l.cancelId ++
        "\" style=\"border-color: var(--border-muted);\">Cancel</button></div>\n" ++
        "              </div>\n" ++
        "              " ++
        (match l.width with
          | some n =>
            "<div class=\"h-2 rounded overflow-hidden\" style=\"background-color: var(--bg);\"><div class" ++
              "=\"h-2 bg-blue-500\" style=\"width:" ++
              JVal.numToString n ++
              "%\"></div></div>"
          | none => "") ++
        "\n" ++
        "            </li>" := by
  rw [fullRow_downloading]
  unfold status.render.rowHtml status.render.cancelButton
  cases l.width with
  | none =>
    apply String.ext
    simp only [String.data_append, List.append_assoc]
    rfl
  | some n =>
    unfold status.render.progressBar
    apply String.ext
    simp only [String.data_append, List.append_assoc]
    rfl

/-- C8, counterexample: a queued job has the object `{"toString": 1}` as its
id and the downloading bucket holds the job `2`. On this snapshot
`status.render` throws and lists nothing, while `status.renderTop` lists the
job `2`; a refresh that receives the snapshot shows the error message in the
full panel and leaves the strip as it was. -/
theorem panel_throws_while_strip_lists :
    status.render trapMixed blankWorld = .error .typeError ∧
    status.renderTop trapMixed blankWorld = .ok { blankWorld with
      activeTopList := some (
        "\n" ++
        "          <div class=\"p-3 rounded-lg\" style=\"background-color: var(--card-background);\">" ++
        "\n" ++
        "            <div class=\"flex items-center justify-between gap-3 mb-2\">\n" ++
        "              <p class=\"text-sm font-semibold truncate\">-</p>\n" ++
        "              <div class=\"shrink-0\">" ++
        "<button class=\"px-2 py-1 rounded-md border text-xs font-semibold\" data-cancel=\"2\" style=" ++
        "\"border-color: var(--border-muted);\">Cancel</button></div>\n" ++
        "            </div>\n" ++
        "            <div class=\"h-1.5 rounded overflow-hidden\" style=\"background-color: var(--bg" ++
        ");\"></div>\n" ++
        "          </div>"),
      activeTopSec := some false } ∧
    (status.fetch (serving trapMixed) blankWorld).statusList =
      "<div class=\"text-sm opacity-80\">Error loading status.</div>" ∧
    (status.fetch (serving trapMixed) blankWorld).activeTopList = some "" ∧
    (status.fetch (serving trapMixed) blankWorld).activeTopSec = some true := by
  refine ⟨rfl, rfl, ?_, ?_, ?_⟩ <;> decide

/-- C8, amended: on a snapshot with distinct keys whose jobs are records (not
null, with an id and a title that have a string form), the two views list
the same jobs. With `jobs` the listings (title, cancel id,
progress width) of the values of the downloading bucket, in their order: the
list of the active strip is one strip row per listing, the strip being
hidden exactly when there is none; the section of the full panel for the key
`downloading` is one full row per listing, present exactly when there is
one; and both a strip row and a full row are markup that carries the title,
the cancel id (in `data-cancel`) and the width (in `width:…%`) of the
listing. -/
theorem views_agree (props : List (String × JVal)) (w : World) (sec : Bool) (list : String)
    (hs : w.activeTopSec = some sec) (hl : w.activeTopList = some list)
    (hkeys : (props.map Prod.fst).Nodup) (hrec : jobsAreRecords props) :
    ∃ jobs : List Listing,
      jobs = ((JVal.obj props).prop "downloading").values.map listing ∧
      status.renderTop (.obj props) w = .ok { w with
        activeTopList := some (String.join (jobs.map stripRow)),
        activeTopSec := some jobs.isEmpty } ∧
      status.render (.obj props) w = .ok { w with
        statusList := panelOf ((props.filter fun e => hasJobs e.2).map sectionOf) } ∧
      (∀ e ∈ props, e.1 = "downloading" →
        hasJobs e.2 = !jobs.isEmpty ∧
        sectionOf e = status.render.sectionHtml "downloading"
          (String.join (jobs.map (fullRow "downloading")))) ∧
      (jobs = [] → ∀ e ∈ props.filter (fun e => hasJobs e.2), e.1 ≠ "downloading") ∧
      (∀ l : Listing, stripRow l =
        "\n" ++
        "          <div class=\"p-3 rounded-lg\" style=\"background-color: var(--card-background);\">" ++
        "\n" ++
        "            <div class=\"flex items-center justify-between gap-3 mb-2\">\n" ++
        "              <p class=\"text-sm font-semibold truncate\">" ++
        l.title ++
        "</p>\n" ++
        "              <div class=\"shrink-0\">" ++
        "<button class=\"px-2 py-1 rounded-md border text-xs font-semibold\" data-cancel=\"" ++
        l.cancelId ++
        "\" style=\"border-color: var(--border-muted);\">Cancel</button></div>\n" ++
        "            </div>\n" ++
        "            <div class=\"h-1.5 rounded overflow-hidden\" style=\"background-color: var(--bg" ++
        ");\">" ++
        (match l.width with
          | some n =>
            "<div class=\"h-1.5 bg-blue-500\" style=\"width:" ++
              JVal.numToString n ++
              "%\"></div>"
          | none => "") ++
        "</div>\n" ++
        "          </div>") ∧
      (∀ l : Listing, fullRow "downloading" l =
        "\n" ++
        "            <li class=\"p-4 rounded-lg flex flex-col gap-3\" style=\"background-color: var(" ++
        "--card-background);\">\n" ++
        "              <div class=\"flex items-center gap-3\">\n" ++
        "                <svg xmlns=\"http://www.w3.org/2000/svg\" class=\"h-6 w-6 text-blue-500 shr" ++
        "ink-0\" fill=\"none\" viewBox=\"0 0 24 24\" stroke=\"currentColor\"><path stroke-linecap=\"round" ++
        "\" stroke-linejoin=\"round\" stroke-width=\"2\" d=\"M4 16v1h16v-1l-2-6-4 4-4-4-2 6zM4 4h16v1H4" ++
        "z\" /></svg>\n" ++
        "                <div class=\"flex-1\">\n" ++
        "                  <p class=\"font-semibold\">" ++
        l.title ++
        "</p>\n" ++
        "                  <p class=\"text-sm opacity-70\">Downloading</p>\n" ++
        "                </div>\n" ++
        "                <div class=\"shrink-0\">" ++
        "<button class=\"px-3 py-1 rounded-md border text-xs font-semibold\" data-cancel=\"" ++
        l.cancelId ++
        "\" style=\"border-color: var(--border-muted);\">Cancel</button></div>\n" ++
        "              </div>\n" ++
        "              " ++
        (match l.width with
          | some n =>
            "<div class=\"h-2 rounded overflow-hidden\" style=\"background-color: var(--bg);\"><div class" ++
              "=\"h-2 bg-blue-500\" style=\"width:" ++
              JVal.numToString n ++
              "%\"></div></div>"
          | none => "") ++
        "\n" ++
        "            </li>") := by
  have hbucket : ∀ e ∈ props, e.1 = "downloading" →
      (JVal.obj props).prop "downloading" = e.2 := by
    intro e he hk
    have := lookup_of_mem_nodup hkeys he
    rw [hk] at this
    simp [JVal.prop, this]
  have hsec : ∀ e ∈ props, e.1 = "downloading" →
      hasJobs e.2 = !(((JVal.obj props).prop "downloading").values.map listing).isEmpty ∧
      sectionOf e = status.render.sectionHtml "downloading"
        (String.join ((((JVal.obj props).prop "downloading").values.map listing).map
          (fullRow "downloading"))) := by
    intro e he hk
    rw [hbucket e he hk]
    constructor
    · unfold hasJobs JVal.values
      cases e.2.entries <;> simp
    · unfold sectionOf
      rw [hk, List.map_map]
      rfl
  refine ⟨_, rfl, ?_, status.render_eq _ w (by simpa [JVal.entries] using hrec), hsec, ?_,
    stripRow_markup, fullRow_downloading_markup⟩
  · have hjobs : ∀ b ∈ ((JVal.obj props).prop "downloading").values, isRecord b = true := by
      intro b hb
      cases hlook : props.lookup "downloading" with
      | none =>
        simp [JVal.prop, hlook, JVal.values, JVal.entries] at hb
      | some items =>
        have hmem : ("downloading", items) ∈ props := by
          clear hkeys hrec hbucket hsec hb
          induction props with
          | nil => simp [List.lookup] at hlook
          | cons p rest ih =>
            obtain ⟨k, v⟩ := p
            by_cases hk : "downloading" = k
            · subst hk
              simp [List.lookup] at hlook
              subst hlook
              exact List.mem_cons_self _ _
            · have hbeq : ("downloading" == k) = false := by simpa using hk
              simp only [List.lookup, hbeq] at hlook
              exact List.mem_cons_of_mem _ (ih hlook)
        have hp : (JVal.obj props).prop "downloading" = items := by
          simp [JVal.prop, hlook]
        rw [hp] at hb
        exact hrec _ hmem b hb
    unfold status.renderTop
    rw [status.renderTop.downloading_eq,
      tryMap_eq_map status.renderTop.row (fun b => stripRow (listing b)) _
        (fun b hb => status.renderTop.row_eq_stripRow (hjobs b hb))]
    simp only [hs, hl, Option.isNone_some, Bool.or_self, Bool.false_eq_true, if_false]
    cases hv : ((JVal.obj props).prop "downloading").values with
    | nil => simp [utils.hide, String.join]
    | cons x xs => simp [utils.show, List.map_map, Function.comp_def]
  · intro hnil e he hk
    obtain ⟨hmem, hj⟩ := List.mem_filter.1 he
    have := (hsec e hmem hk).1
    rw [hnil] at this
    simp [hj] at this

/-- C8, witness: the snapshot of the scenario on the blank page. -/
theorem views_agree_witness :
    blankWorld.activeTopSec = some true ∧ blankWorld.activeTopList = some "" ∧
    (scenario.entries.map Prod.fst).Nodup ∧ jobsAreRecords scenario.entries ∧
    ∃ jobs : List Listing,
      jobs = ((JVal.obj scenario.entries).prop "downloading").values.map listing ∧
      status.renderTop (.obj scenario.entries) blankWorld = .ok { blankWorld with
        activeTopList := some (String.join (jobs.map stripRow)),
        activeTopSec := some jobs.isEmpty } ∧
      status.render (.obj scenario.entries) blankWorld = .ok { blankWorld with
        statusList :=
          panelOf ((scenario.entries.filter fun e => hasJobs e.2).map sectionOf) } ∧
      (∀ e ∈ scenario.entries, e.1 = "downloading" →
        hasJobs e.2 = !jobs.isEmpty ∧
        sectionOf e = status.render.sectionHtml "downloading"
          (String.join (jobs.map (fullRow "downloading")))) ∧
      (jobs = [] → ∀ e ∈ scenario.entries.filter (fun e => hasJobs e.2), e.1 ≠ "downloading") ∧
      (∀ l : Listing, stripRow l =
        "\n" ++
        "          <div class=\"p-3 rounded-lg\" style=\"background-color: var(--card-background);\">" ++
        "\n" ++
        "            <div class=\"flex items-center justify-between gap-3 mb-2\">\n" ++
        "              <p class=\"text-sm font-semibold truncate\">" ++
        l.title ++
        "</p>\n" ++
        "              <div class=\"shrink-0\">" ++
        "<button class=\"px-2 py-1 rounded-md border text-xs font-semibold\" data-cancel=\"" ++
        l.cancelId ++
        "\" style=\"border-color: var(--border-muted);\">Cancel</button></div>\n" ++
        "            </div>\n" ++
        "            <div class=\"h-1.5 rounded overflow-hidden\" style=\"background-color: var(--bg" ++
        ");\">" ++
        (match l.width with
          | some n =>
            "<div class=\"h-1.5 bg-blue-500\" style=\"width:" ++
              JVal.numToString n ++
              "%\"></div>"
          | none => "") ++
        "</div>\n" ++
        "          </div>") ∧
      (∀ l : Listing, fullRow "downloading" l =
        "\n" ++
        "            <li class=\"p-4 rounded-lg flex flex-col gap-3\" style=\"background-color: var(" ++
        "--card-background);\">\n" ++
        "              <div class=\"flex items-center gap-3\">\n" ++
        "                <svg xmlns=\"http://www.w3.org/2000/svg\" class=\"h-6 w-6 text-blue-500 shr" ++
        "ink-0\" fill=\"none\" viewBox=\"0 0 24 24\" stroke=\"currentColor\"><path stroke-linecap=\"round" ++
        "\" stroke-linejoin=\"round\" stroke-width=\"2\" d=\"M4 16v1h16v-1l-2-6-4 4-4-4-2 6zM4 4h16v1H4" ++
        "z\" /></svg>\n" ++
        "                <div class=\"flex-1\">\n" ++
        "                  <p class=\"font-semibold\">" ++
        l.title ++
        "</p>\n" ++
        "                  <p class=\"text-sm opacity-70\">Downloading</p>\n" ++
        "                </div>\n" ++
        "                <div class=\"shrink-0\">" ++
        "<button class=\"px-3 py-1 rounded-md border text-xs font-semibold\" data-cancel=\"" ++
        l.cancelId ++
        "\" style=\"border-color: var(--border-muted);\">Cancel</button></div>\n" ++
        "              </div>\n" ++
        "              " ++
        (match l.width with
          | some n =>
            "<div class=\"h-2 rounded overflow-hidden\" style=\"background-color: var(--bg);\"><div class" ++
              "=\"h-2 bg-blue-500\" style=\"width:" ++
              JVal.numToString n ++
              "%\"></div></div>"
          | none => "") ++
        "\n" ++
        "            </li>") :=
  ⟨rfl, rfl, by decide, by decide,
    views_agree scenario.entries blankWorld true "" rfl rfl (by decide) (by decide)⟩

/-! ## Cancel controls (C9) -/

/-- C9, the code at the failing inputs. The row that `status.render` emits
for a completed job whose title spells a cancel button carries that button
as markup, with its `data-cancel` attribute, so the full panel of a snapshot
with that one job holds a `[data-cancel]` element in a completed row; and
the cancel button of a queued job with the id `a"b` closes its `data-cancel`
attribute after the `a`. -/
theorem completed_row_carries_cancel_markup :
    status.render.row "completed" buttonTitle = .ok (
      "\n" ++
      "            <li class=\"p-4 rounded-lg flex flex-col gap-3\" style=\"background-color: var(" ++
      "--card-background);\">\n" ++
      "              <div class=\"flex items-center gap-3\">\n" ++
      "                <svg xmlns=\"http://www.w3.org/2000/svg\" class=\"h-6 w-6 text-green-500 sh" ++
      "rink-0\" fill=\"none\" viewBox=\"0 0 24 24\" stroke=\"currentColor\"><path stroke-linecap=\"roun" ++
      "d\" stroke-linejoin=\"round\" stroke-width=\"2\" d=\"M9 12l2 2 4-4m6 2a9 9 0 11-18 0 9 9 0 011" ++
      "8 0z\" /></svg>\n" ++
      "                <div class=\"flex-1\">\n" ++
      "                  <p class=\"font-semibold\"><button data-cancel=\"42\">Cancel</button></p>\n" ++
      "                  <p class=\"text-sm opacity-70\">Completed</p>\n" ++
      "                </div>\n" ++
      "                <div class=\"shrink-0\"></div>\n" ++
      "              </div>\n" ++
      "              \n" ++
      "            </li>") ∧
    status.render injected blankWorld = .ok { blankWorld with
      statusList :=
        "\n" ++
        "          <div>\n" ++
        "            <h3 class=\"text-lg font-semibold mb-3\">Completed</h3>\n" ++
        "            <ul class=\"space-y-3\">" ++
        "\n" ++
        "            <li class=\"p-4 rounded-lg flex flex-col gap-3\" style=\"background-color: var(" ++
        "--card-background);\">\n" ++
        "              <div class=\"flex items-center gap-3\">\n" ++
        "                <svg xmlns=\"http://www.w3.org/2000/svg\" class=\"h-6 w-6 text-green-500 sh" ++
        "rink-0\" fill=\"none\" viewBox=\"0 0 24 24\" stroke=\"currentColor\"><path stroke-linecap=\"roun" ++
        "d\" stroke-linejoin=\"round\" stroke-width=\"2\" d=\"M9 12l2 2 4-4m6 2a9 9 0 11-18 0 9 9 0 011" ++
        "8 0z\" /></svg>\n" ++
        "                <div class=\"flex-1\">\n" ++
        "                  <p class=\"font-semibold\"><button data-cancel=\"42\">Cancel</button></p>\n" ++
        "                  <p class=\"text-sm opacity-70\">Completed</p>\n" ++
        "                </div>\n" ++
        "                <div class=\"shrink-0\"></div>\n" ++
        "              </div>\n" ++
        "              \n" ++
        "            </li></ul>\n" ++
        "          </div>" } ∧
    status.render.actions "queued" quotedId = .ok (
      "<button class=\"px-3 py-1 rounded-md border text-xs font-semibold\" data-cancel=\"a\"b\" styl" ++
      "e=\"border-color: var(--border-muted);\">Cancel</button>") :=
  ⟨rfl, rfl, rfl⟩

/-! ## Refresh after cancel and clear (C3) -/

theorem statusFetches_sent (w : World) (req : Request) (h : req ≠ statusRequest) :
    statusFetches { w with requests := w.requests ++ [req] } = statusFetches w := by
  unfold statusFetches
  simp [List.count_append, List.count_cons, h]

theorem cancelRequest_ne_status (id : String) : cancelRequest id ≠ statusRequest := by
  intro h
  have := congrArg Request.method h
  simp [cancelRequest, statusRequest] at this

theorem clearRequest_ne_status : clearRequest ≠ statusRequest := by decide

/-- C3, counterexample: when the request never completes, `queue.cancel`
logs the failure and the clear-completed handler does nothing; neither
issues the status request. -/
theorem no_refresh_on_network_failure :
    queue.cancel offline "42" blankWorld = { blankWorld with
      requests := [cancelRequest "42"],
      console := [LogLine.error "Cancel download error:" .networkError,
        LogLine.info "Failed to cancel download."] } ∧
    statusRequest ∉ (queue.cancel offline "42" blankWorld).requests ∧
    initEvents.clearCompleted offline blankWorld
      = { blankWorld with requests := [clearRequest] } ∧
    statusRequest ∉ (initEvents.clearCompleted offline blankWorld).requests := by
  decide

/-- C3, amended: `queue.cancel` performs one status refresh when its
request completes with a response, whatever the status of the response, and
none when the request never completes: it then logs the error and the
message `Failed to cancel download.`. Likewise the clear-completed handler
performs one status refresh when its request completes with a response and
does nothing more when it never completes. -/
theorem refresh_iff_request_completed (net : Network) (id : String) (w : World) :
    statusFetches (queue.cancel net id w)
      = statusFetches w + (if (net (cancelRequest id)).isSome then 1 else 0) ∧
    statusFetches (initEvents.clearCompleted net w)
      = statusFetches w + (if (net clearRequest).isSome then 1 else 0) ∧
    ((net (cancelRequest id)).isSome = true →
      queue.cancel net id w
        = status.fetch net { w with requests := w.requests ++ [cancelRequest id] }) ∧
    (net (cancelRequest id) = none →
      queue.cancel net id w = { w with
        requests := w.requests ++ [cancelRequest id],
        console := w.console ++ [LogLine.error "Cancel download error:" .networkError,
          LogLine.info "Failed to cancel download."] }) ∧
    ((net clearRequest).isSome = true →
      initEvents.clearCompleted net w
        = status.fetch net { w with requests := w.requests ++ [clearRequest] }) ∧
    (net clearRequest = none →
      initEvents.clearCompleted net w
        = { w with requests := w.requests ++ [clearRequest] }) := by
  have hc : ∀ r, net (cancelRequest id) = r →
      queue.cancel net id w = match r with
        | some _ => status.fetch net { w with requests := w.requests ++ [cancelRequest id] }
        | none => { w with
            requests := w.requests ++ [cancelRequest id],
            console := w.console ++ [LogLine.error "Cancel download error:" .networkError,
              LogLine.info "Failed to cancel download."] } := by
    intro r hr
    unfold queue.cancel fetch
    rw [show (⟨"DELETE", API.cancelDownload ++ "/" ++ encodeURIComponent id ++ "/cancel"⟩
      : Request) = cancelRequest id from rfl, hr]
    cases r
    · simp [utils.toast, consoleError]
    · rfl
  have hl : ∀ r, net clearRequest = r →
      initEvents.clearCompleted net w = match r with
        | some _ => status.fetch net { w with requests := w.requests ++ [clearRequest] }
        | none => { w with requests := w.requests ++ [clearRequest] } := by
    intro r hr
    unfold initEvents.clearCompleted fetch
    rw [show (⟨"DELETE", API.clearCompleted⟩ : Request) = clearRequest from rfl, hr]
    cases r <;> rfl
  refine ⟨?_, ?_, ?_, ?_, ?_, ?_⟩
  · rw [hc _ rfl]
    cases net (cancelRequest id) with
    | none =>
      simp only [Option.isSome_none, Bool.false_eq_true, if_false, Nat.add_zero]
      exact statusFetches_sent _ _ (cancelRequest_ne_status id)
    | some res =>
      simp only [Option.isSome_some, if_true]
      rw [status.fetch_count, statusFetches_sent _ _ (cancelRequest_ne_status id)]
  · rw [hl _ rfl]
    cases net clearRequest with
    | none =>
      simp only [Option.isSome_none, Bool.false_eq_true, if_false, Nat.add_zero]
      exact statusFetches_sent _ _ clearRequest_ne_status
    | some res =>
      simp only [Option.isSome_some, if_true]
      rw [status.fetch_count, statusFetches_sent _ _ clearRequest_ne_status]
  · intro h
    rw [hc _ rfl]
    cases hn : net (cancelRequest id) with
    | none => simp [hn] at h
    | some res => rfl
  · intro h
    rw [hc _ h]
  · intro h
    rw [hl _ rfl]
    cases hn : net clearRequest with
    | none => simp [hn] at h
    | some res => rfl
  · intro h
    rw [hl _ h]

/-- C3, witness: a cancel request that the server answers with status 500
is followed by one status refresh; one that never completes is followed by
none. -/
theorem refresh_iff_request_completed_witness :
    statusFetches (queue.cancel failing "42" blankWorld) = 1 ∧
    statusFetches (queue.cancel offline "42" blankWorld) = 0 :=
  ⟨(refresh_iff_request_completed failing "42" blankWorld).1,
    (refresh_iff_request_completed offline "42" blankWorld).1⟩

/-! ## Refresh after an enqueue request (C10) -/

theorem enqueueRequest_ne_status (idText : String) :
    enqueueRequest idText ≠ statusRequest := by
  intro h
  have h1 := congrArg (fun r => r.url.data.take 14) h
  simp only [enqueueRequest, statusRequest, API.download, API.status, String.data_append] at h1
  revert h1
  simp only [List.append_assoc]
  rw [List.take_append_of_le_length (by decide)]
  decide

theorem status.fetch_views (net : Network) (w : World) :
    (status.fetch net w).modalOverlay = w.modalOverlay ∧
    (status.fetch net w).detailsContainer = w.detailsContainer := by
  obtain ⟨_, -, -, h1, h2⟩ := status.fetch_frame net w
  exact ⟨h1, h2⟩

theorem bookDetails.download_resolved (net : Network) (book : JVal) (w : World)
    (idText : String) (hb : book.truthy = true) (hid : (book.prop "id").toStr = .ok idText)
    (hr : resolves net (enqueueRequest idText) = true) :
    bookDetails.download net book w
      = status.fetch net (modal.close (utils.toast "Queued for download"
          { w with requests := w.requests ++ [enqueueRequest idText] })) := by
  unfold bookDetails.download
  simp only [hb, hid, Bool.not_true, Bool.false_eq_true, if_false]
  unfold utils.j fetch
  unfold resolves at hr
  rw [show (⟨"GET", API.download ++ "?id=" ++ encodeURIComponent idText⟩
    : Request) = enqueueRequest idText from rfl]
  cases hn : net (enqueueRequest idText) with
  | none => simp [hn] at hr
  | some res =>
    simp only [hn, Bool.and_eq_true] at hr
    simp only [hr.1, Bool.not_true, Bool.false_eq_true, if_false]
    cases hbody : res.body with
    | none => simp [hbody] at hr
    | some v => rfl

theorem bookDetails.download_rejected (net : Network) (book : JVal) (w : World)
    (idText : String) (hb : book.truthy = true) (hid : (book.prop "id").toStr = .ok idText)
    (hr : resolves net (enqueueRequest idText) = false) :
    ∃ e, bookDetails.download net book w = { w with
      requests := w.requests ++ [enqueueRequest idText],
      console := w.console ++
        [LogLine.error "Download error:" e, LogLine.info "Failed to queue download."] } := by
  unfold bookDetails.download
  simp only [hb, hid, Bool.not_true, Bool.false_eq_true, if_false]
  unfold utils.j fetch
  unfold resolves at hr
  rw [show (⟨"GET", API.download ++ "?id=" ++ encodeURIComponent idText⟩
    : Request) = enqueueRequest idText from rfl]
  cases hn : net (enqueueRequest idText) with
  | none => exact ⟨.networkError, by simp [utils.toast, consoleError]⟩
  | some res =>
    simp only [hn] at hr
    cases hok : res.ok with
    | false =>
      exact ⟨.error (toString res.status ++ " " ++ res.statusText),
        by simp [utils.toast, consoleError, hok]⟩
    | true =>
      cases hbody : res.body with
      | none => exact ⟨.syntaxError, by simp [utils.toast, consoleError, hok, hbody]⟩
      | some v => simp [hok, hbody] at hr

/-- C10, counterexample: the server answers the enqueue request with status
200 and a body that is not JSON; `bookDetails.download` performs no status
refresh and leaves the details view open. -/
theorem ok_status_without_refresh :
    (notJson (enqueueRequest "1")).map Response.ok = some true ∧
    statusFetches (bookDetails.download notJson aBook blankWorld) = 0 ∧
    bookDetails.download notJson aBook blankWorld = { blankWorld with
      requests := [enqueueRequest "1"],
      console := [LogLine.error "Download error:" .syntaxError,
        LogLine.info "Failed to queue download."] } := by
  decide

/-- C10, amended: for a book record whose id has the string form `idText`,
`bookDetails.download` performs one status refresh and closes the details
view exactly when `utils.j` resolves, that is when the request completes
with a success status and a body that parses as JSON; otherwise (a network
failure, a status that is no success, a body that is not JSON) it performs
no refresh and leaves the full panel, the active strip and the details view
as they were. For a book whose id has no string form it issues no request
and changes nothing. -/
theorem download_refreshes_iff_resolved (net : Network) (book : JVal) (w : World)
    (hb : book.truthy = true) :
    (∀ idText, (book.prop "id").toStr = .ok idText →
      (resolves net (enqueueRequest idText) = true →
        statusFetches (bookDetails.download net book w) = statusFetches w + 1 ∧
        (bookDetails.download net book w).detailsContainer = "" ∧
        (bookDetails.download net book w).modalOverlay
          = w.modalOverlay.map (fun _ => false)) ∧
      (resolves net (enqueueRequest idText) = false →
        statusFetches (bookDetails.download net book w) = statusFetches w ∧
        (bookDetails.download net book w).statusList = w.statusList ∧
        (bookDetails.download net book w).activeTopSec = w.activeTopSec ∧
        (bookDetails.download net book w).activeTopList = w.activeTopList ∧
        (bookDetails.download net book w).detailsContainer = w.detailsContainer ∧
        (bookDetails.download net book w).modalOverlay = w.modalOverlay)) ∧
    ((book.prop "id").printable = false → bookDetails.download net book w = w) := by
  constructor
  · intro idText hid
    constructor
    · intro hr
      rw [bookDetails.download_resolved net book w idText hb hid hr]
      refine ⟨?_, ?_, ?_⟩
      · rw [status.fetch_count]
        exact congrArg (· + 1) (statusFetches_sent _ _ (enqueueRequest_ne_status idText))
      · rw [(status.fetch_views net _).2]
        rfl
      · rw [(status.fetch_views net _).1]
        rfl
    · intro hr
      obtain ⟨e, h⟩ := bookDetails.download_rejected net book w idText hb hid hr
      rw [h]
      exact ⟨statusFetches_sent _ _ (enqueueRequest_ne_status idText), rfl, rfl, rfl, rfl, rfl⟩
  · intro hp
    unfold JVal.printable at hp
    unfold bookDetails.download
    simp only [hb, Bool.not_true, Bool.false_eq_true, if_false]
    cases hs : (book.prop "id").toStr with
    | error e => rfl
    | ok text => simp [hs] at hp

/-- C10, witness: the book with id 1 on a network that answers with status
200 and the body `{}`, and on one that answers with status 500. -/
theorem download_refreshes_iff_resolved_witness :
    aBook.truthy = true ∧ (aBook.prop "id").toStr = .ok "1" ∧
    resolves online (enqueueRequest "1") = true ∧
    resolves failing (enqueueRequest "1") = false ∧
    (statusFetches (bookDetails.download online aBook blankWorld) = statusFetches blankWorld + 1 ∧
      (bookDetails.download online aBook blankWorld).detailsContainer = "" ∧
      (bookDetails.download online aBook blankWorld).modalOverlay
        = blankWorld.modalOverlay.map (fun _ => false)) ∧
    (statusFetches (bookDetails.download failing aBook blankWorld) = statusFetches blankWorld ∧
      (bookDetails.download failing aBook blankWorld).statusList = blankWorld.statusList ∧
      (bookDetails.download failing aBook blankWorld).activeTopSec = blankWorld.activeTopSec ∧
      (bookDetails.download failing aBook blankWorld).activeTopList = blankWorld.activeTopList ∧
      (bookDetails.download failing aBook blankWorld).detailsContainer
        = blankWorld.detailsContainer ∧
      (bookDetails.download failing aBook blankWorld).modalOverlay = blankWorld.modalOverlay) :=
  ⟨rfl, rfl, rfl, rfl,
    ((download_refreshes_iff_resolved online aBook blankWorld rfl).1 "1" rfl).1 rfl,
    ((download_refreshes_iff_resolved failing aBook blankWorld rfl).1 "1" rfl).2 rfl⟩

end BookDownloader
